import Mathlib

/-!
Vortex multi-mode filter: embedding of `dsp.h` and of the control code of
`vortex.cpp`.

The numeric helpers of `dsp.h` are written in C `float`.  They are embedded
here as the same arithmetic expressions over an arbitrary field `K`, so that
they evaluate over `ℚ` and are reasoned about over `ℝ`.  The libm functions
`powf` and `exp2f` are not part of the repository: the definitions that call
them take them as arguments, and the theorems instantiate them with the real
power function.  Rounding of single-precision arithmetic is not modelled in
these definitions; the cutoff clamp and the mode conversion of `step`, which
turn on NaN, on the range of `int` and on rounding, are also given on binary32
values (`F32`).
-/

set_option maxRecDepth 8000

namespace vortex

/-! ## dsp.h -/

/-- Soft-clip saturation of `dsp.h`: `x2 = x * x`, result
`x * (27 + x2) / (27 + 9 * x2)`. -/
def soft_clip {K : Type} [Field K] (x : K) : K :=
  let x2 := x * x
  x * (27 + x2) / (27 + 9 * x2)

/-- The `flush_denormal` helper of `dsp.h`, on the 32-bit pattern `u.i` of its
argument: when the exponent bits are all zero and the mantissa bits are not,
`u.f = 0.0f` stores the pattern `0`; otherwise the pattern is returned as it
came in. -/
def flush_denormal (i : Nat) : Nat :=
  if (i &&& 0x7F800000) = 0 ∧ (i &&& 0x007FFFFF) ≠ 0 then 0 else i

/-- MIDI note to frequency, `440 * powf(2, (note - 69) / 12)`. -/
def midi_note_to_freq {K : Type} [Field K] (powf : K → K → K) (note : K) : K :=
  440 * powf 2 ((note - 69) / 12)

/-- V/OCT to frequency, `261.6255653 * powf(2, voltage)`. -/
def voct_to_freq {K : Type} [Field K] (powf : K → K → K) (voltage : K) : K :=
  (2616255653 / 10000000) * powf 2 voltage

/-- V/OCT to frequency multiplier, `powf(2, voltage)`. -/
def voct_to_mult {K : Type} [Field K] (powf : K → K → K) (voltage : K) : K :=
  powf 2 voltage

/-- Cutoff parameter to Hz, `20 * powf(1000, (float)param / 1000)`. -/
def cutoff_param_to_hz {K : Type} [Field K] (powf : K → K → K) (param : Int) : K :=
  20 * powf 1000 ((param : K) / 1000)

/-- Resonance parameter to damping: `t = (float)param / 1000`, result
`0.707 * (1 - t) + 0.01 * t`. -/
def resonance_to_damping {K : Type} [Field K] (param : Int) : K :=
  let t : K := (param : K) / 1000
  (707 / 1000) * (1 - t) + (1 / 100) * t

/-! ## IEEE-754 binary32 fields of a bit pattern -/

/-- Exponent field (bits 23..30) of a 32-bit pattern. -/
def exponentField (i : Nat) : Nat := (i / 2 ^ 23) % 2 ^ 8

/-- Mantissa field (bits 0..22) of a 32-bit pattern. -/
def mantissaField (i : Nat) : Nat := i % 2 ^ 23

/-- A pattern is subnormal when its exponent field is zero and its mantissa is
not. -/
def isSubnormal (i : Nat) : Prop := exponentField i = 0 ∧ mantissaField i ≠ 0

instance (i : Nat) : Decidable (isSubnormal i) := by
  unfold isSubnormal; exact inferInstance

/-! ## Machine integers -/

/-- Conversion to `int16_t`: the value modulo `2^16` in `[-2^15, 2^15)`. -/
def toInt16 (x : Int) : Int := (x + 2 ^ 15) % 2 ^ 16 - 2 ^ 15

/-- Conversion to `int32_t`: the value modulo `2^32` in `[-2^31, 2^31)`. -/
def toInt32 (x : Int) : Int := (x + 2 ^ 31) % 2 ^ 32 - 2 ^ 31

/-- Conversion to `uint8_t`. -/
def toUInt8 (x : Int) : Nat := (x % 2 ^ 8).toNat

/-! ## vortex.cpp: parameter table -/

/-- An entry of the host's parameter table: name, minimum, maximum, default. -/
structure NT_parameter where
  name : String
  min : Int
  max : Int
  dflt : Int
deriving Repr, DecidableEq

/-- The parameter macros of the host API header, which is not part of the
repository.  `NT_PARAMETER_AUDIO_OUTPUT_WITH_MODE` yields two entries (the
output bus and its mode), matching `kParamOutput` and `kParamOutputMode`. -/
structure NT_macros where
  NT_PARAMETER_AUDIO_INPUT : String → Int → Int → NT_parameter
  NT_PARAMETER_AUDIO_OUTPUT_WITH_MODE : String → Int → Int → NT_parameter × NT_parameter
  NT_PARAMETER_CV_INPUT : String → Int → Int → NT_parameter

def kParamInput : Int := 0
def kParamOutput : Int := 1
def kParamOutputMode : Int := 2
def kParamMode : Int := 3
def kParamCutoff : Int := 4
def kParamResonance : Int := 5
def kParamPoles : Int := 6
def kParamDrive : Int := 7
def kParamMix : Int := 8
def kParamFMDepth : Int := 9
def kParamMidiChannel : Int := 10
def kParamVersion : Int := 11
def kParamCVAudioIn : Int := 12
def kParamCVCutoffVOCT : Int := 13
def kParamCVCutoffFM : Int := 14
def kParamCVResonance : Int := 15
def kParamCVMode : Int := 16
def kParamCVDrive : Int := 17
def kParamCVMix : Int := 18
def kNumParams : Int := 19

/-- The `parameters` table of `vortex.cpp`. -/
def parameters (api : NT_macros) : List NT_parameter :=
  [ api.NT_PARAMETER_AUDIO_INPUT "Input" 0 0,
    (api.NT_PARAMETER_AUDIO_OUTPUT_WITH_MODE "Output" 1 1).1,
    (api.NT_PARAMETER_AUDIO_OUTPUT_WITH_MODE "Output" 1 1).2,
    ⟨"Mode", 0, 6, 1⟩,
    ⟨"Cutoff", 0, 1000, 500⟩,
    ⟨"Resonance", 0, 1000, 0⟩,
    ⟨"Poles", 0, 1, 0⟩,
    ⟨"Drive", 0, 1000, 0⟩,
    ⟨"Mix", 0, 1000, 1000⟩,
    ⟨"FM Depth", -1000, 1000, 0⟩,
    ⟨"MIDI Channel", 1, 16, 1⟩,
    ⟨"Version", 0, 0, 0⟩,
    api.NT_PARAMETER_AUDIO_INPUT "Audio In CV" 0 0,
    api.NT_PARAMETER_CV_INPUT "Cutoff V/OCT CV" 0 0,
    api.NT_PARAMETER_CV_INPUT "Cutoff FM CV" 0 0,
    api.NT_PARAMETER_CV_INPUT "Resonance CV" 0 0,
    api.NT_PARAMETER_CV_INPUT "Mode CV" 0 0,
    api.NT_PARAMETER_CV_INPUT "Drive CV" 0 0,
    api.NT_PARAMETER_CV_INPUT "Mix CV" 0 0 ]

/-- The `ccToParam` table of `vortex.cpp`, row by row as in the source. -/
def ccToParam : List Int :=
  [ -1,-1,-1,-1,-1,-1,-1,-1,-1,-1,-1,-1,-1,-1,
    kParamMode, kParamCutoff, kParamResonance, kParamPoles,
    kParamDrive, kParamMix, kParamFMDepth, kParamMidiChannel,
    -1,-1,-1,-1,-1,-1,-1,-1,-1,-1,-1,-1,-1,-1,-1,-1,
    -1,-1,-1,-1,-1,-1,-1,-1,-1,-1,-1,-1,-1,-1,-1,-1,
    -1,-1,-1,-1,-1,-1,-1,-1,-1,-1,-1,-1,-1,-1,-1,-1,
    -1,-1,-1,-1,-1,-1,-1,-1,-1,-1,-1,-1,-1,-1,-1,-1,
    -1,-1,-1,-1,-1,-1,-1,-1,-1,-1,-1,-1,-1,-1,-1,-1,
    -1,-1,-1,-1,-1,-1,-1,-1,-1,-1,-1,-1,-1,-1,-1,-1,
    -1,-1,-1,-1,-1,-1,-1,-1,-1,-1 ]

/-- Scaling of a CC value to a parameter's range:
`mn + (int16_t)((int32_t)ccValue * (mx - mn) / 127)`, with C's truncating
division; `none` when `paramIndex` is outside the table. -/
def scaleCCToParam (api : NT_macros) (ccValue : Nat) (paramIndex : Int) : Option Int :=
  if paramIndex < 0 then none
  else
    match (parameters api)[paramIndex.toNat]? with
    | none => none
    | some entry =>
      let mn := toInt16 entry.min
      let mx := toInt16 entry.max
      some (toInt16 (mn + toInt16 (Int.tdiv (toInt32 ((ccValue : Int) * (mx - mn))) 127)))

/-! ## vortex.cpp: algorithm state and MIDI handling -/

/-- Modelled from the spec: the declaration of `vortex::Filter1` is not among
the sources.  Kept here is the one memory cell `z` that `step` reads and
flushes. -/
structure Filter1 (K : Type) where
  z : K

/-- Modelled from the spec: the declaration of `vortex::Filter2` is not among
the sources.  Kept here are the two memory cells `z0` and `z1` that `step`
reads and flushes. -/
structure Filter2 (K : Type) where
  z0 : K
  z1 : K

/-- The `_vortexAlgorithm` record, with the host's parameter values `v`. -/
structure vortexAlgorithm (K : Type) where
  f1a : Filter1 K
  f1b : Filter1 K
  f2a : Filter2 K
  f2b : Filter2 K
  mode : Int
  cutoffHz : K
  damping : K
  poles : Int
  drive : K
  mix : K
  fmDepth : K
  midiCutoffHz : K
  midiGate : Nat
  midiNote : Nat
  pitchBendMult : K
  midiChannel : Nat
  sampleRate : K
  v : List Int

/-- The constructor `_vortexAlgorithm()`; the filter sections start zeroed (the
spec: reset to zero on construction) and the parameter values `v` are those
held by the host. -/
def construct {K : Type} [Field K] (v : List Int) : vortexAlgorithm K :=
  { f1a := ⟨0⟩, f1b := ⟨0⟩, f2a := ⟨0, 0⟩, f2b := ⟨0, 0⟩,
    mode := 1, cutoffHz := 632, damping := 707 / 1000, poles := 0,
    drive := 0, mix := 1, fmDepth := 0,
    midiCutoffHz := 0, midiGate := 0, midiNote := 60, pitchBendMult := 1,
    midiChannel := 0, sampleRate := 48000, v := v }

/-- A call `NT_setParameterFromAudio(_, parameter, value)` issued to the host. -/
structure ParamWrite where
  parameter : Int
  value : Int
deriving Repr, DecidableEq

/-- The handler `midiMessage` of `vortex.cpp`: the new algorithm state and the
parameter write issued to the host, if any. -/
def midiMessage {K : Type} [Field K] (api : NT_macros) (powf : K → K → K)
    (exp2f : K → K) (p : vortexAlgorithm K) (byte0 byte1 byte2 : Nat) :
    vortexAlgorithm K × Option ParamWrite :=
  let status := byte0 &&& 0xF0
  let channel := byte0 &&& 0x0F
  if channel ≠ p.midiChannel then (p, none)
  else if status = 0x90 then
    if byte2 > 0 then
      ({ p with midiNote := byte1, midiGate := 1,
                midiCutoffHz := midi_note_to_freq powf (byte1 : K) }, none)
    else if byte1 = p.midiNote then ({ p with midiGate := 0 }, none)
    else (p, none)
  else if status = 0x80 then
    if byte1 = p.midiNote then ({ p with midiGate := 0 }, none)
    else (p, none)
  else if status = 0xB0 then
    if byte1 ≥ 128 then (p, none)
    else
      match ccToParam[byte1]? with
      | none => (p, none)
      | some paramIdx =>
        if paramIdx ≥ 0 then
          match scaleCCToParam api byte2 paramIdx with
          | some value => (p, some ⟨paramIdx, value⟩)
          | none => (p, none)
        else (p, none)
  else if status = 0xE0 then
    let bend := toInt16 (((byte2 <<< 7) ||| byte1 : Nat) : Int)
    let bendNorm : K := ((bend - 8192 : Int) : K) / 8192
    ({ p with pitchBendMult := exp2f (bendNorm * 2 / 12) }, none)
  else (p, none)

/-- A sample expansion of the host macros, used to evaluate the tables on
concrete inputs: bus selectors range over `0..28`, the output mode over
`0..1`. -/
def sampleMacros : NT_macros :=
  { NT_PARAMETER_AUDIO_INPUT := fun n d m => ⟨n, m, 28, d⟩
    NT_PARAMETER_AUDIO_OUTPUT_WITH_MODE := fun n d m => (⟨n, m, 28, d⟩, ⟨n, 0, 1, 0⟩)
    NT_PARAMETER_CV_INPUT := fun n d m => ⟨n, m, 28, d⟩ }

/-! ## vortex.cpp: the drive stage of `step` -/

/-- The drive stage of `step` in `vortex.cpp`: when the effective drive is
positive the signal is multiplied by `1 + drv * 9` and soft-clipped, otherwise
it passes through unchanged. -/
def driveStage {K : Type} [LinearOrderedField K] (drv input : K) : K :=
  if drv > 0 then
    let driveGain := 1 + drv * 9
    soft_clip (input * driveGain)
  else input

/-! ## vortex.cpp: `parameterChanged` -/

/-- The parameter value `p->v[parameter]` held by the host (`0` outside the
array, which the host never indexes). -/
def paramValue {K : Type} (p : vortexAlgorithm K) (parameter : Int) : Int :=
  if parameter < 0 then 0 else p.v.getD parameter.toNat 0

/-- Modelled from the spec: `Filter1::reset()` is not among the sources; the
spec has it zero the state. -/
def Filter1.reset {K : Type} [Field K] (_f : Filter1 K) : Filter1 K := ⟨0⟩

/-- Modelled from the spec: `Filter2::reset()` is not among the sources; the
spec has it zero both state variables. -/
def Filter2.reset {K : Type} [Field K] (_f : Filter2 K) : Filter2 K := ⟨0, 0⟩

/-- The handler `parameterChanged` of `vortex.cpp`. -/
def parameterChanged {K : Type} [Field K] (powf : K → K → K) (p : vortexAlgorithm K)
    (parameter : Int) : vortexAlgorithm K :=
  if parameter = kParamMode then
    { p with mode := paramValue p parameter,
             f1a := p.f1a.reset, f1b := p.f1b.reset,
             f2a := p.f2a.reset, f2b := p.f2b.reset }
  else if parameter = kParamCutoff then
    { p with cutoffHz := cutoff_param_to_hz powf (paramValue p parameter) }
  else if parameter = kParamResonance then
    { p with damping := resonance_to_damping (paramValue p parameter) }
  else if parameter = kParamPoles then
    { p with poles := paramValue p parameter }
  else if parameter = kParamDrive then
    { p with drive := ((paramValue p parameter : Int) : K) * (1 / 1000) }
  else if parameter = kParamMix then
    { p with mix := ((paramValue p parameter : Int) : K) * (1 / 1000) }
  else if parameter = kParamFMDepth then
    { p with fmDepth := ((paramValue p parameter : Int) : K) * (1 / 1000) }
  else if parameter = kParamMidiChannel then
    { p with midiChannel := toUInt8 (paramValue p parameter - 1) }
  else p

/-! ## vortex.cpp: `step`

A CV or audio bus that is not connected (parameter value `0`, pointer `NULL`)
is `none`; a connected one is `some` of its value at the current frame. -/

/-- Truncation toward zero of an exact value, the `trunc` of the claims.  The
conversion `(int)x` of `step` acts on a rounded `float` product and is defined
only within the range of `int`: that conversion is `floatToInt`. -/
def truncToInt {K : Type} [LinearOrderedField K] [FloorRing K] (x : K) : Int :=
  if 0 ≤ x then Int.floor x else Int.ceil x

/-- Effective mode of `step` in exact arithmetic: with the mode CV connected,
`mode + (int)(cvMode[i] * 1.4f)` clamped to `0..6`.  The computation on
`float` values is `effectiveMode32`. -/
def effectiveMode {K : Type} [LinearOrderedField K] [FloorRing K] (mode : Int)
    (cvMode : Option K) : Int :=
  match cvMode with
  | none => mode
  | some cv =>
    let modeOffset := truncToInt (cv * (14 / 10))
    let mode := mode + modeOffset
    let mode := if mode < 0 then 0 else mode
    if mode > 6 then 6 else mode

/-- Cutoff of `step` before the CV modulation: the keyboard cutoff times the
pitch-bend multiplier when `p->midiGate && p->midiCutoffHz > 0.0f`, else the
base cutoff. -/
def trackedCutoff {K : Type} [LinearOrderedField K] (p : vortexAlgorithm K) : K :=
  if p.midiGate ≠ 0 ∧ p.midiCutoffHz > 0 then p.midiCutoffHz * p.pitchBendMult
  else p.cutoffHz

/-- Cutoff of `step` after the V/OCT and FM modulation and before the clamp. -/
def modulatedCutoff {K : Type} [LinearOrderedField K] (powf : K → K → K)
    (p : vortexAlgorithm K) (cvVOCT cvFM : Option K) : K :=
  let cutoff := trackedCutoff p
  let cutoff := match cvVOCT with
    | some v => cutoff * voct_to_mult powf v
    | none => cutoff
  match cvFM with
  | some v => cutoff * voct_to_mult powf (v * p.fmDepth)
  | none => cutoff

/-- Effective cutoff of `step` in exact arithmetic: `if (cutoff < 20) cutoff = 20;
if (cutoff > 20000) cutoff = 20000;` after the modulation.  The computation on
`float` values, where the product can be NaN, is `effectiveCutoff32`. -/
def effectiveCutoff {K : Type} [LinearOrderedField K] (powf : K → K → K)
    (p : vortexAlgorithm K) (cvVOCT cvFM : Option K) : K :=
  let cutoff := modulatedCutoff powf p cvVOCT cvFM
  let cutoff := if cutoff < 20 then 20 else cutoff
  if cutoff > 20000 then 20000 else cutoff

/-- Effective damping of `step`: with the resonance CV connected,
`damping - cv * 0.2f` clamped to `[0.01, 0.707]`. -/
def effectiveDamping {K : Type} [LinearOrderedField K] (damping : K)
    (cvResonance : Option K) : K :=
  match cvResonance with
  | none => damping
  | some cv =>
    let resoAdd := cv * (2 / 10)
    let damping := damping - resoAdd
    let damping := if damping < 1 / 100 then 1 / 100 else damping
    if damping > 707 / 1000 then 707 / 1000 else damping

/-- Effective drive of `step`: with the drive CV connected, `drv + cv * 0.2f`
clamped to `[0, 1]`. -/
def effectiveDrive {K : Type} [LinearOrderedField K] (drive : K) (cvDrive : Option K) : K :=
  match cvDrive with
  | none => drive
  | some cv =>
    let drv := drive + cv * (2 / 10)
    let drv := if drv < 0 then 0 else drv
    if drv > 1 then 1 else drv

/-- Effective mix of `step`: with the mix CV connected, `mix + cv * 0.2f`
clamped to `[0, 1]`. -/
def effectiveMix {K : Type} [LinearOrderedField K] (mix : K) (cvMix : Option K) : K :=
  match cvMix with
  | none => mix
  | some cv =>
    let mix := mix + cv * (2 / 10)
    let mix := if mix < 0 then 0 else mix
    if mix > 1 then 1 else mix

/-- Output taps of the second-order section (`vortex::F2_LP`, ...). -/
inductive F2Tap where
  | F2_LP
  | F2_HP
  | F2_BP
  | F2_NOTCH
  | F2_AP
deriving Repr, DecidableEq

/-- The filter-section routines that `step` calls; their definitions are not
among the sources, so they are taken as given.  Each routine stands for the
configure call followed by the process call on the same section, and returns
the updated section and the output sample:
`lp1 fs cutoff f x` for `filter1_configure_lp(f, fs, cutoff); f.process_lp(x)`,
`hp1 fs cutoff f x` for `filter1_configure_hp(f, fs, cutoff); f.process_hp(x)`,
`svf fs cutoff damping tap f x` for
`filter2_configure(f, fs, cutoff, damping, tap); filter2_process(f, x, tap)`. -/
structure FilterOps (K : Type) where
  lp1 : K → K → Filter1 K → K → Filter1 K × K
  hp1 : K → K → Filter1 K → K → Filter1 K × K
  svf : K → K → K → F2Tap → Filter2 K → K → Filter2 K × K

/-- The helper `flush_denormal` on values: the subnormal numbers of binary32
are the non-zero values of magnitude below `2^-126`. -/
def flushValue {K : Type} [LinearOrderedField K] (x : K) : K :=
  if x ≠ 0 ∧ |x| < (1 / 2) ^ 126 then 0 else x

/-- One stage, or two cascaded stages, of the first-order section. -/
def cascade1 {K : Type} (op : Filter1 K → K → Filter1 K × K) (fourPole : Bool)
    (p : vortexAlgorithm K) (signal : K) : vortexAlgorithm K × K :=
  let a := op p.f1a signal
  if fourPole then
    let b := op p.f1b a.2
    ({ p with f1a := a.1, f1b := b.1 }, b.2)
  else ({ p with f1a := a.1 }, a.2)

/-- One stage, or two cascaded stages, of the second-order section. -/
def cascade2 {K : Type} (op : Filter2 K → K → Filter2 K × K) (fourPole : Bool)
    (p : vortexAlgorithm K) (signal : K) : vortexAlgorithm K × K :=
  let a := op p.f2a signal
  if fourPole then
    let b := op p.f2b a.2
    ({ p with f2a := a.1, f2b := b.1 }, b.2)
  else ({ p with f2a := a.1 }, a.2)

/-- The `switch ( mode )` of `step`: the algorithm with its filter sections
updated and the wet sample; outside `0..6` no case is taken and `wet` stays
`0`. -/
def filterDispatch {K : Type} [Field K] (ops : FilterOps K) (p : vortexAlgorithm K)
    (mode : Int) (fourPole : Bool) (fs cutoff damping signal : K) : vortexAlgorithm K × K :=
  if mode = 0 then cascade1 (ops.lp1 fs cutoff) fourPole p signal
  else if mode = 1 then cascade2 (ops.svf fs cutoff damping F2Tap.F2_LP) fourPole p signal
  else if mode = 2 then cascade1 (ops.hp1 fs cutoff) fourPole p signal
  else if mode = 3 then cascade2 (ops.svf fs cutoff damping F2Tap.F2_HP) fourPole p signal
  else if mode = 4 then cascade2 (ops.svf fs cutoff damping F2Tap.F2_BP) fourPole p signal
  else if mode = 5 then cascade2 (ops.svf fs cutoff damping F2Tap.F2_NOTCH) fourPole p signal
  else if mode = 6 then cascade2 (ops.svf fs cutoff damping F2Tap.F2_AP) fourPole p signal
  else (p, 0)

/-- The lines "Flush denormals from filter state" of `step`. -/
def flushState {K : Type} [LinearOrderedField K] (p : vortexAlgorithm K) : vortexAlgorithm K :=
  { p with f1a := ⟨flushValue p.f1a.z⟩, f1b := ⟨flushValue p.f1b.z⟩,
           f2a := ⟨flushValue p.f2a.z0, flushValue p.f2a.z1⟩,
           f2b := ⟨flushValue p.f2b.z0, flushValue p.f2b.z1⟩ }

/-- A bus pointer of `step` read at frame `i`:
`sel ? busFrames + (sel - 1) * numFrames : NULL`. -/
def busSample {K : Type} (busFrames : Int → K) (numFrames : Int) (sel : Int) (i : Int) :
    Option K :=
  if sel ≠ 0 then some (busFrames ((sel - 1) * numFrames + i)) else none

/-- The values one iteration of the loop of `step` computes. -/
structure Sample (K : Type) where
  dry : K
  mode : Int
  cutoff : K
  damping : K
  drv : K
  mix : K
  signal : K
  wet : K
  result : K
  next : vortexAlgorithm K

/-- The body of the loop of `step` at frame `i`, up to the dry/wet mix. -/
def sample {K : Type} [LinearOrderedField K] [FloorRing K] (ops : FilterOps K)
    (powf : K → K → K) (p : vortexAlgorithm K) (busFrames : Int → K)
    (numFrames i : Int) : Sample K :=
  let bus := fun k : Int => busSample busFrames numFrames (paramValue p k) i
  let input : K :=
    match bus kParamInput with
    | some x => x
    | none =>
      match bus kParamCVAudioIn with
      | some x => x
      | none => 0
  let dry := input
  let mode := effectiveMode p.mode (bus kParamCVMode)
  let cutoff := effectiveCutoff powf p (bus kParamCVCutoffVOCT) (bus kParamCVCutoffFM)
  let damping := effectiveDamping p.damping (bus kParamCVResonance)
  let drv := effectiveDrive p.drive (bus kParamCVDrive)
  let mix := effectiveMix p.mix (bus kParamCVMix)
  let signal := driveStage drv input
  let fourPole := decide (p.poles = 1)
  let filtered := filterDispatch ops p mode fourPole p.sampleRate cutoff damping signal
  let wet := filtered.2
  let result := dry * (1 - mix) + wet * mix
  { dry := dry, mode := mode, cutoff := cutoff, damping := damping, drv := drv,
    mix := mix, signal := signal, wet := wet, result := result,
    next := flushState filtered.1 }

/-- One iteration of the loop of `step`: the sample is computed and written to
the output bus, replacing the frame when the output mode is `0` and adding to
it otherwise. -/
def stepFrame {K : Type} [LinearOrderedField K] [FloorRing K] (ops : FilterOps K)
    (powf : K → K → K) (numFrames : Int) (st : vortexAlgorithm K × (Int → K)) (i : Nat) :
    vortexAlgorithm K × (Int → K) :=
  let p := st.1
  let busFrames := st.2
  let s := sample ops powf p busFrames numFrames i
  let out := (paramValue p kParamOutput - 1) * numFrames + i
  let replace := decide (paramValue p kParamOutputMode = 0)
  (s.next, Function.update busFrames out
    (if replace then s.result else busFrames out + s.result))

/-- The function `step` of `vortex.cpp`: the sample rate is taken from the
host globals, then the `numFramesBy4 * 4` frames are processed in order. -/
def step {K : Type} [LinearOrderedField K] [FloorRing K] (ops : FilterOps K)
    (powf : K → K → K) (globalSampleRate : K) (p : vortexAlgorithm K)
    (busFrames : Int → K) (numFramesBy4 : Nat) : vortexAlgorithm K × (Int → K) :=
  let numFrames := numFramesBy4 * 4
  (List.range numFrames).foldl (stepFrame ops powf numFrames)
    ({ p with sampleRate := globalSampleRate }, busFrames)

/-- Pass-through filter sections, used to evaluate `step` on concrete inputs:
each routine leaves its section alone and returns its input sample. -/
def passOps {K : Type} : FilterOps K :=
  { lp1 := fun _ _ f x => (f, x)
    hp1 := fun _ _ f x => (f, x)
    svf := fun _ _ _ _ f x => (f, x) }

/-! ## Binary32 values

The clamp of the cutoff and the conversion of the mode CV turn on cases that an
ordered field does not have: a product that is not a number, a value outside
the range of `int`, a product that rounds.  For these two fragments of `step`
the values of C `float` are modelled as such. -/

/-- A value of C `float` (IEEE-754 binary32): a finite number `m * 2^e`, an
infinity with its sign, or NaN.  The sign of zero is not kept. -/
inductive F32 where
  | fin (m : Int) (e : Int)
  | inf (neg : Bool)
  | nan
deriving DecidableEq, Repr

/-- Binary digits of `a`, counted by halving at most `fuel` times. -/
def bitLengthAux : Nat → Nat → Nat
  | 0, _ => 0
  | fuel + 1, a => if a = 0 then 0 else bitLengthAux fuel (a / 2) + 1

/-- Number of binary digits of `a`. -/
def bitLength (a : Nat) : Nat := bitLengthAux a a

/-- Rounding of the exact number `m * 2^e` to binary32: to nearest, ties to
even, keeping at most 24 significant bits and no bit below `2^-149`; a result
of magnitude `2^128` or more is an infinity. -/
def round32 (m : Int) (e : Int) : F32 :=
  if m = 0 then F32.fin 0 0
  else
    let a := m.natAbs
    let s : Int := max ((bitLength a : Int) - 24) (-149 - e)
    if s ≤ 0 then
      if (bitLength a : Int) + e > 128 then F32.inf (decide (m < 0)) else F32.fin m e
    else
      let k := s.toNat
      let q := a >>> k
      let r := a % 2 ^ k
      let half := 2 ^ (k - 1)
      let q' := if r > half ∨ (r = half ∧ q % 2 = 1) then q + 1 else q
      if (bitLength q' : Int) + (e + s) > 128 then F32.inf (decide (m < 0))
      else F32.fin (if m < 0 then -(q' : Int) else (q' : Int)) (e + s)

/-- The product `a * b` of two `float`s: NaN if either is NaN or if one is an
infinity and the other zero, an infinity if one is, and the rounded exact
product otherwise. -/
def fmul : F32 → F32 → F32
  | F32.nan, _ => F32.nan
  | _, F32.nan => F32.nan
  | F32.inf a, F32.inf b => F32.inf (xor a b)
  | F32.inf a, F32.fin m _ => if m = 0 then F32.nan else F32.inf (xor a (decide (m < 0)))
  | F32.fin m _, F32.inf b => if m = 0 then F32.nan else F32.inf (xor (decide (m < 0)) b)
  | F32.fin m1 e1, F32.fin m2 e2 => round32 (m1 * m2) (e1 + e2)

/-- The comparison `a < b` of two `float`s, false when either is NaN. -/
def flt : F32 → F32 → Bool
  | F32.nan, _ => false
  | _, F32.nan => false
  | F32.inf a, F32.inf b => a && !b
  | F32.inf a, F32.fin _ _ => a
  | F32.fin _ _, F32.inf b => !b
  | F32.fin m1 e1, F32.fin m2 e2 =>
    decide (m1 * 2 ^ (e1 - min e1 e2).toNat < m2 * 2 ^ (e2 - min e1 e2).toNat)

/-- The conversion `(int)x` of a `float`: the value truncated toward zero when
that lies in the range of a 32-bit `int`; `none` where C leaves the conversion
undefined (NaN, infinities, values out of range). -/
def floatToInt : F32 → Option Int
  | F32.fin m e =>
    let t := if e ≥ 0 then m * 2 ^ e.toNat else Int.tdiv m (2 ^ (-e).toNat)
    if -2 ^ 31 ≤ t ∧ t < 2 ^ 31 then some t else none
  | _ => none

/-- The constant `1.4f`: `11744051 * 2^-23`, the binary32 number nearest to
`1.4`. -/
def float_1_4 : F32 := F32.fin 11744051 (-23)

/-- The mode computation of `step` on `float` values:
`mode + (int)(cvMode[i] * 1.4f)` clamped to `0..6`, `none` where the
conversion or the `int` addition is undefined in C. -/
def effectiveMode32 (mode : Int) (cvMode : Option F32) : Option Int :=
  match cvMode with
  | none => some mode
  | some cv =>
    match floatToInt (fmul cv float_1_4) with
    | none => none
    | some modeOffset =>
      let sum := mode + modeOffset
      if sum < -2 ^ 31 ∨ 2 ^ 31 ≤ sum then none
      else
        let mode := if sum < 0 then 0 else sum
        some (if mode > 6 then 6 else mode)

/-- The cutoff of `step` before the CV modulation, on `float` values. -/
def trackedCutoff32 (p : vortexAlgorithm F32) : F32 :=
  if p.midiGate ≠ 0 ∧ flt (F32.fin 0 0) p.midiCutoffHz = true then
    fmul p.midiCutoffHz p.pitchBendMult
  else p.cutoffHz

/-- The cutoff of `step` after the V/OCT and FM modulation and before the
clamp, on `float` values; `powf 2 v` is `voct_to_mult(v)`. -/
def modulatedCutoff32 (powf : F32 → F32 → F32) (p : vortexAlgorithm F32)
    (cvVOCT cvFM : Option F32) : F32 :=
  let cutoff := trackedCutoff32 p
  let cutoff := match cvVOCT with
    | some v => fmul cutoff (powf (F32.fin 2 0) v)
    | none => cutoff
  match cvFM with
  | some v => fmul cutoff (powf (F32.fin 2 0) (fmul v p.fmDepth))
  | none => cutoff

/-- The effective cutoff of `step` on `float` values:
`if (cutoff < 20.0f) cutoff = 20.0f; if (cutoff > 20000.0f) cutoff = 20000.0f;`
after the modulation. -/
def effectiveCutoff32 (powf : F32 → F32 → F32) (p : vortexAlgorithm F32)
    (cvVOCT cvFM : Option F32) : F32 :=
  let cutoff := modulatedCutoff32 powf p cvVOCT cvFM
  let cutoff := if flt cutoff (F32.fin 20 0) = true then F32.fin 20 0 else cutoff
  if flt (F32.fin 20000 0) cutoff = true then F32.fin 20000 0 else cutoff

/-- The constructor `_vortexAlgorithm()` on `float` values (`0.707f` is
`11861492 * 2^-24`), with zeroed filter sections. -/
def construct32 (v : List Int) : vortexAlgorithm F32 :=
  { f1a := ⟨F32.fin 0 0⟩, f1b := ⟨F32.fin 0 0⟩,
    f2a := ⟨F32.fin 0 0, F32.fin 0 0⟩, f2b := ⟨F32.fin 0 0, F32.fin 0 0⟩,
    mode := 1, cutoffHz := F32.fin 632 0, damping := F32.fin 11861492 (-24), poles := 0,
    drive := F32.fin 0 0, mix := F32.fin 1 0, fmDepth := F32.fin 0 0,
    midiCutoffHz := F32.fin 0 0, midiGate := 0, midiNote := 60,
    pitchBendMult := F32.fin 1 0, midiChannel := 0, sampleRate := F32.fin 48000 0, v := v }

/-- A power function with the two values of binary32 `powf` that the cutoff
claim turns on: `2^128` overflows to `+inf` and `2^-150` underflows to `0`;
elsewhere it returns `1`. -/
def powfEdge (_base exponent : F32) : F32 :=
  if exponent = F32.fin 128 0 then F32.inf false
  else if exponent = F32.fin (-150) 0 then F32.fin 0 0
  else F32.fin 1 0

/-! ## Auxiliary lemmas on `soft_clip` -/

theorem soft_clip_den_pos (x : ℝ) : 0 < 27 + 9 * (x * x) := by
  nlinarith [mul_self_nonneg x]

/-- Difference of two values of the saturator over a common denominator. -/
theorem soft_clip_sub (x y : ℝ) :
    soft_clip y - soft_clip x =
      (y - x) * (9 * (x * y - 9) ^ 2 + 27 * (x - y) ^ 2)
        / ((27 + 9 * (x * x)) * (27 + 9 * (y * y))) := by
  have hx := (soft_clip_den_pos x).ne.symm
  have hy := (soft_clip_den_pos y).ne.symm
  simp only [soft_clip]
  field_simp
  ring

/-- The saturator is monotone on the reals. -/
theorem soft_clip_mono {x y : ℝ} (h : x ≤ y) : soft_clip x ≤ soft_clip y := by
  have hd : 0 < (27 + 9 * (x * x)) * (27 + 9 * (y * y)) :=
    mul_pos (soft_clip_den_pos x) (soft_clip_den_pos y)
  have hn : 0 ≤ (y - x) * (9 * (x * y - 9) ^ 2 + 27 * (x - y) ^ 2) :=
    mul_nonneg (sub_nonneg.mpr h) (by positivity)
  have := div_nonneg hn hd.le
  rw [← soft_clip_sub] at this
  linarith

/-- For non-negative arguments the saturator stays above one ninth of its
argument. -/
theorem soft_clip_ge_ninth {x : ℝ} (hx : 0 ≤ x) : x / 9 ≤ soft_clip x := by
  have hd := soft_clip_den_pos x
  simp only [soft_clip]
  rw [div_le_div_iff₀ (by norm_num) hd]
  nlinarith [mul_nonneg hx (mul_self_nonneg x)]

/-- C1: for every real `x`, `soft_clip (-x) = -soft_clip x` (odd symmetry of
the saturator `x * (27 + x^2) / (27 + 9 * x^2)`). -/
theorem soft_clip_odd (x : ℝ) : soft_clip (-x) = -soft_clip x := by
  simp only [soft_clip]
  ring

/-- C2: the documented point values of the saturator, exactly in rational
arithmetic and hence within the tolerance `1e-4` of the tests:
`soft_clip 0 = 0`, `soft_clip 1 = 28/36`, `soft_clip 3 = 1`. -/
theorem soft_clip_point_values :
    soft_clip (0 : ℚ) = 0 ∧ soft_clip (1 : ℚ) = 28 / 36 ∧ soft_clip (3 : ℚ) = 1 ∧
    |soft_clip (0 : ℚ) - 0| ≤ 1 / 10000 ∧ |soft_clip (1 : ℚ) - 28 / 36| ≤ 1 / 10000 ∧
    |soft_clip (3 : ℚ) - 1| ≤ 1 / 10000 := by
  have h0 : soft_clip (0 : ℚ) = 0 := by norm_num [soft_clip]
  have h1 : soft_clip (1 : ℚ) = 28 / 36 := by norm_num [soft_clip]
  have h3 : soft_clip (3 : ℚ) = 1 := by norm_num [soft_clip]
  refine ⟨h0, h1, h3, ?_, ?_, ?_⟩
  · rw [h0]; norm_num
  · rw [h1]; norm_num
  · rw [h3]; norm_num

/-- C3: the saturator as coded is not bounded: every candidate bound `B` is
exceeded by some `|soft_clip x|`, and already `soft_clip 30 = 1030/301` lies
above `1`, the value at the knee, and above `1/3`. -/
theorem soft_clip_unbounded :
    (∀ B : ℝ, ∃ x : ℝ, B < |soft_clip x|) ∧
    soft_clip (30 : ℚ) = 1030 / 301 ∧ (1 : ℚ) < soft_clip (30 : ℚ) := by
  refine ⟨fun B => ⟨9 * (|B| + 1), ?_⟩, ?_, ?_⟩
  · have hx : (0 : ℝ) ≤ 9 * (|B| + 1) := by positivity
    have h := soft_clip_ge_ninth hx
    have hB := le_abs_self B
    have habs := le_abs_self (soft_clip (9 * (|B| + 1)))
    linarith
  · norm_num [soft_clip]
  · norm_num [soft_clip]

theorem two_rpow_succ (v : ℝ) : Real.rpow 2 (v + 1) = 2 * Real.rpow 2 v := by
  simp only [Real.rpow_eq_pow]
  rw [Real.rpow_add (by norm_num : (0 : ℝ) < 2), Real.rpow_one]
  ring

theorem cutoff_param_to_hz_lt {p q : ℤ} (h : p < q) :
    cutoff_param_to_hz Real.rpow p < cutoff_param_to_hz Real.rpow q := by
  simp only [cutoff_param_to_hz, Real.rpow_eq_pow]
  have hc : ((p : ℝ) / 1000) < (q : ℝ) / 1000 := by
    have : (p : ℝ) < q := by exact_mod_cast h
    linarith
  have := (Real.rpow_lt_rpow_left_iff (by norm_num : (1 : ℝ) < 1000)).mpr hc
  linarith

theorem cutoff_param_to_hz_zero : cutoff_param_to_hz Real.rpow 0 = 20 := by
  simp [cutoff_param_to_hz]

theorem cutoff_param_to_hz_max : cutoff_param_to_hz Real.rpow 1000 = 20000 := by
  simp [cutoff_param_to_hz]
  norm_num

/-- C5: `cutoff_param_to_hz p = 20 * 1000^(p/1000)` is strictly increasing in
the integer parameter over `[0, 1000]`, is `20` at `0`, `20000` at `1000` and
within `1.0` of `632.46` at `500`; so every parameter in `[0, 1000]` gives a
cutoff in `[20, 20000]` and distinct parameters give distinct cutoffs. -/
theorem cutoff_param_to_hz_sweep :
    StrictMonoOn (fun p : ℤ => cutoff_param_to_hz Real.rpow p) (Set.Icc 0 1000) ∧
    cutoff_param_to_hz Real.rpow 0 = 20 ∧
    cutoff_param_to_hz Real.rpow 1000 = 20000 ∧
    |cutoff_param_to_hz Real.rpow 500 - 63246 / 100| ≤ 1 ∧
    (∀ p : ℤ, 0 ≤ p → p ≤ 1000 →
      20 ≤ cutoff_param_to_hz Real.rpow p ∧ cutoff_param_to_hz Real.rpow p ≤ 20000) ∧
    Set.InjOn (fun p : ℤ => cutoff_param_to_hz Real.rpow p) (Set.Icc 0 1000) := by
  have hmono : StrictMonoOn (fun p : ℤ => cutoff_param_to_hz Real.rpow p)
      (Set.Icc 0 1000) := fun p _ q _ h => cutoff_param_to_hz_lt h
  refine ⟨hmono, cutoff_param_to_hz_zero, cutoff_param_to_hz_max, ?_, ?_, hmono.injOn⟩
  · have hr : cutoff_param_to_hz Real.rpow 500 = 20 * (1000 : ℝ) ^ ((1 : ℝ) / 2) := by
      simp only [cutoff_param_to_hz, Real.rpow_eq_pow]
      norm_num
    have hpos : (0 : ℝ) < (1000 : ℝ) ^ ((1 : ℝ) / 2) := Real.rpow_pos_of_pos (by norm_num) _
    have hsq : (1000 : ℝ) ^ ((1 : ℝ) / 2) * (1000 : ℝ) ^ ((1 : ℝ) / 2) = 1000 := by
      rw [← Real.rpow_add (by norm_num : (0 : ℝ) < 1000)]
      norm_num
    rw [hr, abs_le]
    constructor <;> nlinarith
  · intro p h0 h1
    constructor
    · rcases h0.eq_or_lt with h | h
      · rw [← h, cutoff_param_to_hz_zero]
      · have := cutoff_param_to_hz_lt h
        rw [cutoff_param_to_hz_zero] at this
        exact this.le
    · rcases h1.eq_or_lt with h | h
      · rw [h, cutoff_param_to_hz_max]
      · have := cutoff_param_to_hz_lt h
        rw [cutoff_param_to_hz_max] at this
        exact this.le

theorem cutoff_param_to_hz_sweep_witness :
    cutoff_param_to_hz Real.rpow 499 < cutoff_param_to_hz Real.rpow 500 :=
  cutoff_param_to_hz_sweep.1 (by simp) (by simp) (by norm_num)

/-- C7: `midi_note_to_freq n = 440 * 2^((n - 69)/12)` is `440` at note `69`,
within `0.01` of `261.63` at note `60`, and doubles when the note goes up by
`12`. -/
theorem midi_note_to_freq_values :
    midi_note_to_freq Real.rpow 69 = 440 ∧
    |midi_note_to_freq Real.rpow 60 - 26163 / 100| ≤ 1 / 100 ∧
    ∀ n : ℝ, midi_note_to_freq Real.rpow (n + 12) = 2 * midi_note_to_freq Real.rpow n := by
  refine ⟨by simp [midi_note_to_freq], ?_, ?_⟩
  · have hr : midi_note_to_freq Real.rpow 60 = 440 * (2 : ℝ) ^ (-(3 : ℝ) / 4) := by
      simp only [midi_note_to_freq, Real.rpow_eq_pow]
      norm_num
    have hpos : (0 : ℝ) < (2 : ℝ) ^ (-(3 : ℝ) / 4) := Real.rpow_pos_of_pos (by norm_num) _
    have h4 : ((2 : ℝ) ^ (-(3 : ℝ) / 4)) ^ 4 = 1 / 8 := by
      rw [← Real.rpow_natCast, ← Real.rpow_mul (by norm_num : (0 : ℝ) ≤ 2)]
      rw [show (-(3 : ℝ) / 4 * ((4 : ℕ) : ℝ)) = -((3 : ℕ) : ℝ) by norm_num]
      rw [Real.rpow_neg (by norm_num : (0 : ℝ) ≤ 2), Real.rpow_natCast]
      norm_num
    rw [hr, abs_le]
    constructor
    · by_contra hlt
      push_neg at hlt
      have hy : (2 : ℝ) ^ (-(3 : ℝ) / 4) < 26162 / 44000 := by linarith
      have := pow_lt_pow_left₀ hy hpos.le (by norm_num : (4 : ℕ) ≠ 0)
      rw [h4] at this
      norm_num at this
    · by_contra hlt
      push_neg at hlt
      have hy : (26164 / 44000 : ℝ) < (2 : ℝ) ^ (-(3 : ℝ) / 4) := by linarith
      have := pow_lt_pow_left₀ hy (by norm_num) (by norm_num : (4 : ℕ) ≠ 0)
      rw [h4] at this
      norm_num at this
  · intro n
    simp only [midi_note_to_freq]
    rw [show (n + 12 - 69) / 12 = (n - 69) / 12 + 1 by ring, two_rpow_succ]
    ring

/-- C8: one volt per octave: `voct_to_mult 0 = 1`, `voct_to_mult 1 = 2`,
`voct_to_mult (v + 1) = 2 * voct_to_mult v` and
`voct_to_freq v = 261.6255653 * voct_to_mult v` for every voltage `v`, so
`voct_to_freq 0` is within `0.01` of `261.63` and `voct_to_freq 1` within
`0.1` of `523.25`. -/
theorem voct_one_volt_per_octave :
    voct_to_mult Real.rpow 0 = 1 ∧ voct_to_mult Real.rpow 1 = 2 ∧
    (∀ v : ℝ, voct_to_mult Real.rpow (v + 1) = 2 * voct_to_mult Real.rpow v) ∧
    (∀ v : ℝ, voct_to_freq Real.rpow v = 2616255653 / 10000000 * voct_to_mult Real.rpow v) ∧
    |voct_to_freq Real.rpow 0 - 26163 / 100| ≤ 1 / 100 ∧
    |voct_to_freq Real.rpow 1 - 52325 / 100| ≤ 1 / 10 := by
  have h0 : voct_to_mult Real.rpow 0 = 1 := by simp [voct_to_mult]
  have h1 : voct_to_mult Real.rpow 1 = 2 := by simp [voct_to_mult]
  have hf : ∀ v : ℝ, voct_to_freq Real.rpow v =
      2616255653 / 10000000 * voct_to_mult Real.rpow v := fun v => rfl
  refine ⟨h0, h1, fun v => two_rpow_succ v, hf, ?_, ?_⟩
  · rw [hf, h0, abs_le]; constructor <;> norm_num
  · rw [hf, h1, abs_le]; constructor <;> norm_num

/-! ## Claims on the resonance mapping and the denormal flush -/

theorem resonance_to_damping_eq (p : ℤ) :
    (resonance_to_damping p : ℚ) = 707 / 1000 - 697 / 1000000 * (p : ℚ) := by
  simp only [resonance_to_damping]
  ring

/-- C6: `resonance_to_damping p = 0.707 * (1 - p/1000) + 0.01 * (p/1000)` is
strictly decreasing in the integer parameter over `[0, 1000]`, is `0.707` at
`0` and exactly `0.01`, inside `(0, 0.02)`, at `1000`; so every parameter in
`[0, 1000]` gives a damping in `[0.01, 0.707]`. -/
theorem resonance_to_damping_sweep :
    StrictAntiOn (fun p : ℤ => (resonance_to_damping p : ℚ)) (Set.Icc 0 1000) ∧
    (resonance_to_damping 0 : ℚ) = 707 / 1000 ∧
    (resonance_to_damping 1000 : ℚ) = 1 / 100 ∧
    (0 : ℚ) < resonance_to_damping 1000 ∧ (resonance_to_damping 1000 : ℚ) < 2 / 100 ∧
    (∀ p : ℤ, 0 ≤ p → p ≤ 1000 →
      (1 / 100 : ℚ) ≤ resonance_to_damping p ∧ (resonance_to_damping p : ℚ) ≤ 707 / 1000) := by
  have h0 : (resonance_to_damping 0 : ℚ) = 707 / 1000 := by
    rw [resonance_to_damping_eq]; norm_num
  have h1 : (resonance_to_damping 1000 : ℚ) = 1 / 100 := by
    rw [resonance_to_damping_eq]; norm_num
  refine ⟨?_, h0, h1, by rw [h1]; norm_num, by rw [h1]; norm_num, ?_⟩
  · intro p _ q _ hpq
    have hc : (p : ℚ) < q := by exact_mod_cast hpq
    show (resonance_to_damping q : ℚ) < resonance_to_damping p
    rw [resonance_to_damping_eq, resonance_to_damping_eq]
    linarith
  · intro p hp0 hp1
    have h0q : (0 : ℚ) ≤ p := by exact_mod_cast hp0
    have h1q : (p : ℚ) ≤ 1000 := by exact_mod_cast hp1
    rw [resonance_to_damping_eq]
    constructor <;> linarith

theorem resonance_to_damping_sweep_witness :
    (resonance_to_damping 1000 : ℚ) < resonance_to_damping 0 :=
  resonance_to_damping_sweep.1 (by simp) (by simp) (by norm_num)

/-- The exponent mask of `flush_denormal` selects bits 23..30. -/
theorem and_exponent_mask (i : Nat) :
    i &&& 0x7F800000 = 2 ^ 23 * ((i / 2 ^ 23) % 2 ^ 8) := by
  apply Nat.eq_of_testBit_eq
  intro j
  have hm : (0x7F800000 : Nat) = 2 ^ 23 * (2 ^ 8 - 1) + 0 := by norm_num
  have hr : 2 ^ 23 * ((i / 2 ^ 23) % 2 ^ 8) = 2 ^ 23 * ((i / 2 ^ 23) % 2 ^ 8) + 0 := rfl
  rw [Nat.testBit_and, hm, hr, Nat.testBit_mul_pow_two_add _ (by norm_num : 0 < 2 ^ 23),
    Nat.testBit_mul_pow_two_add _ (by norm_num : 0 < 2 ^ 23)]
  by_cases hj : j < 23
  · simp [hj]
  · simp only [hj, if_false, Nat.testBit_two_pow_sub_one, Nat.testBit_mod_two_pow,
      ← Nat.shiftRight_eq_div_pow, Nat.testBit_shiftRight]
    have : 23 + (j - 23) = j := by omega
    rw [this, Bool.and_comm]

/-- The mantissa mask of `flush_denormal` selects bits 0..22. -/
theorem and_mantissa_mask (i : Nat) : i &&& 0x007FFFFF = i % 2 ^ 23 := by
  have hm : (0x007FFFFF : Nat) = 2 ^ 23 - 1 := by norm_num
  rw [hm, Nat.and_pow_two_sub_one_eq_mod]

/-- C9: on the 32-bit pattern of its argument, `flush_denormal` returns the
pattern `0` (that is `0.0`) when the exponent field is zero and the mantissa
is not (a subnormal of either sign), and returns every other pattern (zeros,
normals, infinities, NaNs) unchanged. -/
theorem flush_denormal_spec (i : Nat) :
    flush_denormal i = if isSubnormal i then 0 else i := by
  have he : (i &&& 0x7F800000 = 0) ↔ exponentField i = 0 := by
    rw [and_exponent_mask, exponentField]
    constructor
    · intro h
      rcases Nat.mul_eq_zero.mp h with h | h
      · norm_num at h
      · exact h
    · intro h
      rw [h, Nat.mul_zero]
  have hm : (i &&& 0x007FFFFF) = mantissaField i := and_mantissa_mask i
  simp only [flush_denormal, isSubnormal, he, hm]

/-! ## Claims on the CC scaling -/

/-- The non-negative entries of `ccToParam` are the indices of the eight value
parameters `kParamMode` .. `kParamMidiChannel`. -/
theorem ccToParam_mapped (cc : Nat) (idx : Int) (h : ccToParam[cc]? = some idx)
    (hidx : 0 ≤ idx) : idx ∈ [3, 4, 5, 6, 7, 8, 9, (10 : Int)] := by
  have hlen : cc < ccToParam.length := by
    by_contra hge
    rw [List.getElem?_eq_none (Nat.le_of_not_lt hge)] at h
    exact Option.noConfusion h
  have hall : ∀ c : Nat, c < 128 → ccToParam[c]?.getD (-1) < 0 ∨
      ccToParam[c]?.getD (-1) ∈ [3, 4, 5, 6, 7, 8, 9, (10 : Int)] := by decide
  have := hall cc hlen
  simp only [h, Option.getD_some] at this
  rcases this with h1 | h1
  · omega
  · exact h1

/-- C10: for every parameter index reachable through the CC table,
`scaleCCToParam 0 idx` is the declared minimum of that parameter and
`scaleCCToParam 127 idx` its declared maximum; in particular a Control Change
for CC14 on the configured channel writes Mode `0` for value `0` and Mode `6`
for value `127` (and leaves the algorithm state as it was). -/
theorem scaleCCToParam_endpoints {K : Type} [Field K] (api : NT_macros)
    (powf : K → K → K) (exp2f : K → K) (p : vortexAlgorithm K) (byte0 : Nat)
    (hs : byte0 &&& 0xF0 = 0xB0) (hc : byte0 &&& 0x0F = p.midiChannel) :
    (∀ (cc : Nat) (idx : Int), ccToParam[cc]? = some idx → 0 ≤ idx →
      ∃ entry, (parameters api)[idx.toNat]? = some entry ∧
        scaleCCToParam api 0 idx = some entry.min ∧
        scaleCCToParam api 127 idx = some entry.max) ∧
    midiMessage api powf exp2f p byte0 14 0 = (p, some ⟨kParamMode, 0⟩) ∧
    midiMessage api powf exp2f p byte0 14 127 = (p, some ⟨kParamMode, 6⟩) := by
  refine ⟨?_, ?_, ?_⟩
  · intro cc idx h hidx
    have hm := ccToParam_mapped cc idx h hidx
    simp only [List.mem_cons, List.mem_singleton, List.mem_nil_iff, or_false] at hm
    rcases hm with rfl | rfl | rfl | rfl | rfl | rfl | rfl | rfl
    · exact ⟨⟨"Mode", 0, 6, 1⟩, rfl, rfl, rfl⟩
    · exact ⟨⟨"Cutoff", 0, 1000, 500⟩, rfl, rfl, rfl⟩
    · exact ⟨⟨"Resonance", 0, 1000, 0⟩, rfl, rfl, rfl⟩
    · exact ⟨⟨"Poles", 0, 1, 0⟩, rfl, rfl, rfl⟩
    · exact ⟨⟨"Drive", 0, 1000, 0⟩, rfl, rfl, rfl⟩
    · exact ⟨⟨"Mix", 0, 1000, 1000⟩, rfl, rfl, rfl⟩
    · exact ⟨⟨"FM Depth", -1000, 1000, 0⟩, rfl, rfl, rfl⟩
    · exact ⟨⟨"MIDI Channel", 1, 16, 1⟩, rfl, rfl, rfl⟩
  · have hcc : ccToParam[14]? = some kParamMode := by decide
    have hsc : scaleCCToParam api 0 kParamMode = some 0 := rfl
    have hk : kParamMode ≥ 0 := by decide
    simp [midiMessage, hs, hc, hcc, hsc, hk]
  · have hcc : ccToParam[14]? = some kParamMode := by decide
    have hsc : scaleCCToParam api 127 kParamMode = some 6 := rfl
    have hk : kParamMode ≥ 0 := by decide
    simp [midiMessage, hs, hc, hcc, hsc, hk]

theorem scaleCCToParam_endpoints_witness :
    (0xB0 &&& 0xF0 = 0xB0) ∧ (0xB0 &&& 0x0F = (construct [] : vortexAlgorithm ℚ).midiChannel) ∧
    midiMessage sampleMacros (fun _ _ => (0 : ℚ)) (fun _ => 0) (construct []) 0xB0 14 0
      = (construct [], some ⟨kParamMode, 0⟩) ∧
    midiMessage sampleMacros (fun _ _ => (0 : ℚ)) (fun _ => 0) (construct []) 0xB0 14 127
      = (construct [], some ⟨kParamMode, 6⟩) :=
  ⟨by decide, by decide,
   (scaleCCToParam_endpoints sampleMacros (fun _ _ => (0 : ℚ)) (fun _ => 0) (construct [])
      0xB0 (by decide) (by decide)).2⟩

/-! ## Claims on `midiMessage` -/

/-- C11: `midiMessage` does nothing in two cases: when the channel nibble
`byte0 & 0x0F` differs from the configured channel, whatever the status and
data bytes; and for a Control Change on the configured channel whose CC number
has no non-negative entry in `ccToParam`.  In both the algorithm state (so
gate, note, keyboard cutoff and pitch-bend multiplier) is unchanged and no
parameter write is issued. -/
theorem midiMessage_noop {K : Type} [Field K] (api : NT_macros) (powf : K → K → K)
    (exp2f : K → K) (p : vortexAlgorithm K) (byte0 byte1 byte2 : Nat) :
    (byte0 &&& 0x0F ≠ p.midiChannel →
      midiMessage api powf exp2f p byte0 byte1 byte2 = (p, none)) ∧
    (byte0 &&& 0x0F = p.midiChannel → byte0 &&& 0xF0 = 0xB0 →
      (∀ idx, ccToParam[byte1]? = some idx → idx < 0) →
      midiMessage api powf exp2f p byte0 byte1 byte2 = (p, none)) := by
  constructor
  · intro hc
    simp [midiMessage, hc]
  · intro hc hs hun
    simp only [midiMessage, hc, hs, ne_eq, not_true_eq_false, if_false]
    simp only [show ¬ (0xB0 = 0x90) by decide, show ¬ (0xB0 = 0x80) by decide, if_false,
      if_true]
    split
    · rfl
    · cases hcc : ccToParam[byte1]? with
      | none => rfl
      | some idx =>
        have hneg := hun idx hcc
        simp [not_le.mpr hneg]

theorem midiMessage_noop_witness :
    midiMessage sampleMacros (fun _ _ => (0 : ℚ)) (fun _ => 0) (construct []) 0x91 60 100
      = (construct [], none) ∧
    midiMessage sampleMacros (fun _ _ => (0 : ℚ)) (fun _ => 0) (construct []) 0xB0 22 127
      = (construct [], none) :=
  ⟨(midiMessage_noop sampleMacros (fun _ _ => (0 : ℚ)) (fun _ => 0) (construct [])
      0x91 60 100).1 (by decide),
   (midiMessage_noop sampleMacros (fun _ _ => (0 : ℚ)) (fun _ => 0) (construct [])
      0xB0 22 127).2 (by decide) (by decide)
      (by intro idx h
          have h22 : ccToParam[22]? = some (-1) := by decide
          rw [h22] at h
          cases h
          decide)⟩

/-- C12, as the table is coded: `ccToParam` has 128 entries, its non-negative
entries are exactly those of CC14 .. CC21, which carry the eight indices
`kParamMode` .. `kParamMidiChannel` in order, and CC22 is `-1`. -/
theorem ccToParam_maps_eight :
    ccToParam.length = 128 ∧
    (∀ cc : Nat, cc < 128 → (0 ≤ ccToParam[cc]?.getD (-1) ↔ 14 ≤ cc ∧ cc ≤ 21)) ∧
    (∀ cc : Nat, cc < 128 → ccToParam[cc]?.getD (-1) < 0 → ccToParam[cc]? = some (-1)) ∧
    (List.range 128).filterMap (fun cc =>
        if 0 ≤ ccToParam[cc]?.getD (-1) then some (cc, ccToParam[cc]?.getD (-1)) else none)
      = [(14, kParamMode), (15, kParamCutoff), (16, kParamResonance), (17, kParamPoles),
         (18, kParamDrive), (19, kParamMix), (20, kParamFMDepth), (21, kParamMidiChannel)] ∧
    ccToParam[22]? = some (-1) := by
  refine ⟨by decide, by decide, by decide, by decide, by decide⟩

/-- C13: a Note On (status `0x9n`) on the configured channel with velocity
`> 0` and note number `k` leaves gate `1`, held note `k` and keyboard cutoff
`midi_note_to_freq k`, whatever the prior state, and leaves the pitch-bend
multiplier and the configured channel unchanged; no parameter write is
issued. -/
theorem noteOn_sets_tracking {K : Type} [Field K] (api : NT_macros) (powf : K → K → K)
    (exp2f : K → K) (p : vortexAlgorithm K) (byte0 k byte2 : Nat)
    (hs : byte0 &&& 0xF0 = 0x90) (hc : byte0 &&& 0x0F = p.midiChannel) (hv : byte2 > 0) :
    (midiMessage api powf exp2f p byte0 k byte2).1.midiGate = 1 ∧
    (midiMessage api powf exp2f p byte0 k byte2).1.midiNote = k ∧
    (midiMessage api powf exp2f p byte0 k byte2).1.midiCutoffHz
      = midi_note_to_freq powf (k : K) ∧
    (midiMessage api powf exp2f p byte0 k byte2).1.pitchBendMult = p.pitchBendMult ∧
    (midiMessage api powf exp2f p byte0 k byte2).1.midiChannel = p.midiChannel ∧
    (midiMessage api powf exp2f p byte0 k byte2).2 = none := by
  have h : midiMessage api powf exp2f p byte0 k byte2 =
      ({ p with midiNote := k, midiGate := 1,
                midiCutoffHz := midi_note_to_freq powf (k : K) }, none) := by
    simp [midiMessage, hs, hc, hv]
  rw [h]
  exact ⟨rfl, rfl, rfl, rfl, rfl, rfl⟩

theorem noteOn_sets_tracking_witness :
    (0x90 &&& 0xF0 = 0x90) ∧ (0x90 &&& 0x0F = (construct [] : vortexAlgorithm ℝ).midiChannel) ∧
    (100 > 0) ∧
    (midiMessage sampleMacros Real.rpow (Real.rpow 2) (construct []) 0x90 69 100).1.midiGate = 1 ∧
    (midiMessage sampleMacros Real.rpow (Real.rpow 2) (construct []) 0x90 69 100).1.midiNote = 69 ∧
    (midiMessage sampleMacros Real.rpow (Real.rpow 2) (construct []) 0x90 69 100).1.midiCutoffHz
      = midi_note_to_freq Real.rpow ((69 : ℕ) : ℝ) :=
  have h := noteOn_sets_tracking sampleMacros Real.rpow (Real.rpow 2)
    (construct [] : vortexAlgorithm ℝ) 0x90 69 100 (by decide) (by decide) (by decide)
  ⟨by decide, by decide, by decide, h.1, h.2.1, h.2.2.1⟩

/-- C14: for a Note Off (status `0x8n`), or a Note On with velocity `0`, on
the configured channel: when its note number is the held note the gate
becomes `0`; when it is not, the whole state is unchanged; in both cases the
held note, the keyboard cutoff and the bend multiplier are unchanged, and no
parameter write is issued. -/
theorem noteOff_clears_gate {K : Type} [Field K] (api : NT_macros) (powf : K → K → K)
    (exp2f : K → K) (p : vortexAlgorithm K) (byte0 byte1 byte2 : Nat)
    (hc : byte0 &&& 0x0F = p.midiChannel)
    (hs : byte0 &&& 0xF0 = 0x80 ∨ (byte0 &&& 0xF0 = 0x90 ∧ byte2 = 0)) :
    (byte1 = p.midiNote →
      (midiMessage api powf exp2f p byte0 byte1 byte2).1.midiGate = 0) ∧
    (byte1 ≠ p.midiNote → (midiMessage api powf exp2f p byte0 byte1 byte2).1 = p) ∧
    (midiMessage api powf exp2f p byte0 byte1 byte2).1.midiNote = p.midiNote ∧
    (midiMessage api powf exp2f p byte0 byte1 byte2).1.midiCutoffHz = p.midiCutoffHz ∧
    (midiMessage api powf exp2f p byte0 byte1 byte2).1.pitchBendMult = p.pitchBendMult ∧
    (midiMessage api powf exp2f p byte0 byte1 byte2).2 = none := by
  have h : midiMessage api powf exp2f p byte0 byte1 byte2 =
      (if byte1 = p.midiNote then { p with midiGate := 0 } else p, none) := by
    rcases hs with hs | ⟨hs, hv⟩
    · simp only [midiMessage, hs, hc, ne_eq, not_true_eq_false, if_false,
        show ¬ (0x80 = 0x90) by decide, if_true]
      split <;> rfl
    · subst hv
      simp only [midiMessage, hs, hc, ne_eq, not_true_eq_false, if_false, if_true,
        gt_iff_lt, lt_self_iff_false]
      split <;> rfl
  rw [h]
  by_cases hn : byte1 = p.midiNote
  · simp [hn]
  · simp [hn]

theorem noteOff_clears_gate_witness :
    (0x80 &&& 0x0F = (construct [] : vortexAlgorithm ℚ).midiChannel) ∧
    (midiMessage sampleMacros (fun _ _ => (0 : ℚ)) (fun _ => 0)
        { (construct [] : vortexAlgorithm ℚ) with midiGate := 1 } 0x80 60 0).1.midiGate = 0 ∧
    (midiMessage sampleMacros (fun _ _ => (0 : ℚ)) (fun _ => 0)
        { (construct [] : vortexAlgorithm ℚ) with midiGate := 1 } 0x90 61 0).1
      = { (construct [] : vortexAlgorithm ℚ) with midiGate := 1 } :=
  ⟨by decide,
   (noteOff_clears_gate sampleMacros (fun _ _ => (0 : ℚ)) (fun _ => 0)
      { (construct [] : vortexAlgorithm ℚ) with midiGate := 1 } 0x80 60 0
      (by decide) (Or.inl (by decide))).1 rfl,
   (noteOff_clears_gate sampleMacros (fun _ _ => (0 : ℚ)) (fun _ => 0)
      { (construct [] : vortexAlgorithm ℚ) with midiGate := 1 } 0x90 61 0
      (by decide) (Or.inr ⟨by decide, rfl⟩)).2.1 (by decide)⟩

/-- For data bytes below `128` the expression `(byte2 << 7) | byte1` is the
14-bit value `byte2 * 128 + byte1`, which `int16_t` holds unchanged. -/
theorem bend_value (byte1 byte2 : Nat) (h1 : byte1 ≤ 127) (h2 : byte2 ≤ 127) :
    toInt16 (((byte2 <<< 7) ||| byte1 : Nat) : Int) = ((byte2 * 128 + byte1 : Nat) : Int) := by
  have hor : (byte2 <<< 7) ||| byte1 = byte2 * 128 + byte1 := by
    have hlt : byte1 < 2 ^ 7 := by norm_num; omega
    rw [Nat.shiftLeft_eq, Nat.mul_comm, ← Nat.mul_add_lt_is_or hlt]
  rw [hor]
  simp only [toInt16]
  omega

/-- C15: for a Pitch Bend message (status `0xEn`) on the configured channel
with data bytes in `0..127`, the value `bend = byte2 * 128 + byte1` lies in
`[0, 16383]`, the normalised bend `(bend - 8192) / 8192` lies in `[-1, 1]` and
is `0` at the centre, and the stored multiplier is `2^(normalised * 2 / 12)`:
`1` at the centre, between `2^(-1/6)` and `2^(1/6)` over the range, with
`2^(-1/6)` at `bend = 0` and `2^(8191/49152)` at `bend = 16383`.  Gate, held
note and keyboard cutoff are unchanged and no parameter write is issued. -/
theorem pitchBend_multiplier (api : NT_macros) (powf : ℝ → ℝ → ℝ) (p : vortexAlgorithm ℝ)
    (byte0 byte1 byte2 : Nat) (hs : byte0 &&& 0xF0 = 0xE0)
    (hc : byte0 &&& 0x0F = p.midiChannel) (h1 : byte1 ≤ 127) (h2 : byte2 ≤ 127) :
    byte2 * 128 + byte1 ≤ 16383 ∧
    -1 ≤ (((byte2 * 128 + byte1 : ℕ) : ℝ) - 8192) / 8192 ∧
    (((byte2 * 128 + byte1 : ℕ) : ℝ) - 8192) / 8192 ≤ 1 ∧
    (byte2 * 128 + byte1 = 8192 → (((byte2 * 128 + byte1 : ℕ) : ℝ) - 8192) / 8192 = 0) ∧
    (midiMessage api powf (Real.rpow 2) p byte0 byte1 byte2).1.pitchBendMult
      = Real.rpow 2 ((((byte2 * 128 + byte1 : ℕ) : ℝ) - 8192) / 8192 * 2 / 12) ∧
    (byte2 * 128 + byte1 = 8192 →
      (midiMessage api powf (Real.rpow 2) p byte0 byte1 byte2).1.pitchBendMult = 1) ∧
    Real.rpow 2 (-(1 / 6))
      ≤ (midiMessage api powf (Real.rpow 2) p byte0 byte1 byte2).1.pitchBendMult ∧
    (midiMessage api powf (Real.rpow 2) p byte0 byte1 byte2).1.pitchBendMult
      ≤ Real.rpow 2 (1 / 6) ∧
    (byte2 * 128 + byte1 = 0 →
      (midiMessage api powf (Real.rpow 2) p byte0 byte1 byte2).1.pitchBendMult
        = Real.rpow 2 (-(1 / 6))) ∧
    (byte2 * 128 + byte1 = 16383 →
      (midiMessage api powf (Real.rpow 2) p byte0 byte1 byte2).1.pitchBendMult
        = Real.rpow 2 (8191 / 49152)) ∧
    (midiMessage api powf (Real.rpow 2) p byte0 byte1 byte2).1.midiGate = p.midiGate ∧
    (midiMessage api powf (Real.rpow 2) p byte0 byte1 byte2).1.midiNote = p.midiNote ∧
    (midiMessage api powf (Real.rpow 2) p byte0 byte1 byte2).1.midiCutoffHz = p.midiCutoffHz ∧
    (midiMessage api powf (Real.rpow 2) p byte0 byte1 byte2).2 = none := by
  have hb : byte2 * 128 + byte1 ≤ 16383 := by omega
  have hbr : ((byte2 * 128 + byte1 : ℕ) : ℝ) ≤ 16383 := by exact_mod_cast hb
  have hb0 : (0 : ℝ) ≤ ((byte2 * 128 + byte1 : ℕ) : ℝ) := Nat.cast_nonneg _
  have hm : midiMessage api powf (Real.rpow 2) p byte0 byte1 byte2 =
      ({ p with pitchBendMult :=
          Real.rpow 2 ((((byte2 * 128 + byte1 : ℕ) : ℝ) - 8192) / 8192 * 2 / 12) }, none) := by
    simp only [midiMessage, hs, hc, ne_eq, not_true_eq_false, if_false, if_true,
      show ¬ (0xE0 = 0x90) by decide, show ¬ (0xE0 = 0x80) by decide,
      show ¬ (0xE0 = 0xB0) by decide, bend_value byte1 byte2 h1 h2]
    congr 3
    push_cast
    ring
  have hmono : ∀ a b : ℝ, a ≤ b → Real.rpow 2 a ≤ Real.rpow 2 b := fun a b hab =>
    (Real.rpow_le_rpow_left_iff (by norm_num : (1 : ℝ) < 2)).mpr hab
  rw [hm]
  refine ⟨hb, ?_, ?_, ?_, rfl, ?_, ?_, ?_, ?_, ?_, rfl, rfl, rfl, rfl⟩
  · rw [le_div_iff₀ (by norm_num)]; linarith
  · rw [div_le_iff₀ (by norm_num)]; linarith
  · intro h; rw [h]; norm_num
  · intro h
    show Real.rpow 2 _ = 1
    rw [h]; norm_num
  · show Real.rpow 2 _ ≤ Real.rpow 2 _
    apply hmono
    rw [div_mul_eq_mul_div, div_div, le_div_iff₀ (by norm_num)]
    linarith
  · show Real.rpow 2 _ ≤ Real.rpow 2 _
    apply hmono
    rw [div_mul_eq_mul_div, div_div, div_le_iff₀ (by norm_num)]
    linarith
  · intro h
    show Real.rpow 2 _ = Real.rpow 2 _
    rw [h]; norm_num
  · intro h
    show Real.rpow 2 _ = Real.rpow 2 _
    rw [h]; norm_num

theorem pitchBend_multiplier_witness :
    (0xE0 &&& 0xF0 = 0xE0) ∧ (0xE0 &&& 0x0F = (construct [] : vortexAlgorithm ℝ).midiChannel) ∧
    (midiMessage sampleMacros Real.rpow (Real.rpow 2) (construct []) 0xE0 0 64).1.pitchBendMult
      = 1 :=
  ⟨by decide, by decide,
   (pitchBend_multiplier sampleMacros Real.rpow (construct []) 0xE0 0 64
      (by decide) (by decide) (by decide) (by decide)).2.2.2.2.2.1 (by decide)⟩

/-! ## Claims on the per-sample resolution of `step` -/

/-- Both clamp comparisons of `step` are false on NaN, so NaN passes them;
any other modulated cutoff ends between `20` and `20000`. -/
theorem effectiveCutoff32_cases (powf : F32 → F32 → F32) (p : vortexAlgorithm F32)
    (cvVOCT cvFM : Option F32) :
    (modulatedCutoff32 powf p cvVOCT cvFM = F32.nan →
      effectiveCutoff32 powf p cvVOCT cvFM = F32.nan) ∧
    (modulatedCutoff32 powf p cvVOCT cvFM ≠ F32.nan →
      effectiveCutoff32 powf p cvVOCT cvFM ≠ F32.nan ∧
      flt (effectiveCutoff32 powf p cvVOCT cvFM) (F32.fin 20 0) = false ∧
      flt (F32.fin 20000 0) (effectiveCutoff32 powf p cvVOCT cvFM) = false) := by
  constructor
  · intro h
    simp only [effectiveCutoff32, h]
    decide
  · intro h
    simp only [effectiveCutoff32]
    by_cases h1 : flt (modulatedCutoff32 powf p cvVOCT cvFM) (F32.fin 20 0) = true
    · rw [if_pos h1]
      decide
    · rw [if_neg h1]
      by_cases h2 : flt (F32.fin 20000 0) (modulatedCutoff32 powf p cvVOCT cvFM) = true
      · rw [if_pos h2]
        decide
      · rw [if_neg h2]
        exact ⟨h, by simpa using h1, by simpa using h2⟩

/-- C16, on the code: the clamp of `step` does not hold the cutoff in
`[20, 20000]` for all CV values.  With the gate off, base cutoff `632`, FM
depth `1`, a V/OCT CV of `128` and an FM CV of `-150`, and a `powf` that
overflows at `2^128` and underflows at `2^-150` as binary32 `powf` does, the
modulated cutoff is `632 * inf * 0`, which is NaN; both comparisons of the
clamp are false on it and NaN is the cutoff handed to the filter sections.
NaN is the only value that escapes the clamp. -/
theorem effectiveCutoff32_nan (powf : F32 → F32 → F32) (p : vortexAlgorithm F32)
    (hover : powf (F32.fin 2 0) (F32.fin 128 0) = F32.inf false)
    (hunder : powf (F32.fin 2 0) (F32.fin (-150) 0) = F32.fin 0 0)
    (hgate : p.midiGate = 0) (hbase : p.cutoffHz = F32.fin 632 0)
    (hdepth : p.fmDepth = F32.fin 1 0) :
    modulatedCutoff32 powf p (some (F32.fin 128 0)) (some (F32.fin (-150) 0)) = F32.nan ∧
    effectiveCutoff32 powf p (some (F32.fin 128 0)) (some (F32.fin (-150) 0)) = F32.nan ∧
    flt F32.nan (F32.fin 20 0) = false ∧ flt (F32.fin 20000 0) F32.nan = false ∧
    (∀ cvVOCT cvFM : Option F32, effectiveCutoff32 powf p cvVOCT cvFM ≠ F32.nan →
      flt (effectiveCutoff32 powf p cvVOCT cvFM) (F32.fin 20 0) = false ∧
      flt (F32.fin 20000 0) (effectiveCutoff32 powf p cvVOCT cvFM) = false) := by
  have hm : modulatedCutoff32 powf p (some (F32.fin 128 0)) (some (F32.fin (-150) 0))
      = F32.nan := by
    have h150 : fmul (F32.fin (-150) 0) (F32.fin 1 0) = F32.fin (-150) 0 := by decide
    have hinf : fmul (F32.fin 632 0) (F32.inf false) = F32.inf false := by decide
    have hnan : fmul (F32.inf false) (F32.fin 0 0) = F32.nan := by decide
    simp only [modulatedCutoff32, trackedCutoff32, hgate, hbase, hdepth, hover, hunder,
      h150, hinf, hnan, ne_eq, not_true_eq_false, false_and, if_false]
  refine ⟨hm, (effectiveCutoff32_cases powf p _ _).1 hm, by decide, by decide, ?_⟩
  intro cvVOCT cvFM hne
  by_cases hmod : modulatedCutoff32 powf p cvVOCT cvFM = F32.nan
  · exact absurd ((effectiveCutoff32_cases powf p cvVOCT cvFM).1 hmod) hne
  · exact ((effectiveCutoff32_cases powf p cvVOCT cvFM).2 hmod).2

theorem effectiveCutoff32_nan_witness :
    powfEdge (F32.fin 2 0) (F32.fin 128 0) = F32.inf false ∧
    powfEdge (F32.fin 2 0) (F32.fin (-150) 0) = F32.fin 0 0 ∧
    (construct32 []).midiGate = 0 ∧ (construct32 []).cutoffHz = F32.fin 632 0 ∧
    ({ construct32 [] with fmDepth := F32.fin 1 0 } : vortexAlgorithm F32).fmDepth
      = F32.fin 1 0 ∧
    effectiveCutoff32 powfEdge { construct32 [] with fmDepth := F32.fin 1 0 }
      (some (F32.fin 128 0)) (some (F32.fin (-150) 0)) = F32.nan :=
  ⟨by decide, by decide, rfl, rfl, rfl,
   (effectiveCutoff32_nan powfEdge { construct32 [] with fmDepth := F32.fin 1 0 }
      (by decide) (by decide) rfl rfl rfl).2.1⟩

/-- C17: before the CV modulation the cutoff of `step` is the keyboard cutoff
times the pitch-bend multiplier exactly when the gate is on and the keyboard
cutoff is positive, and the base cutoff otherwise; a connected V/OCT CV
multiplies it by `2^voct` and a connected FM CV by `2^(fm * fmDepth)`, so one
more volt of V/OCT doubles the unclamped cutoff. -/
theorem cutoff_modulation (p : vortexAlgorithm ℝ) (voct fm : ℝ) :
    (p.midiGate ≠ 0 ∧ 0 < p.midiCutoffHz →
      trackedCutoff p = p.midiCutoffHz * p.pitchBendMult) ∧
    (¬ (p.midiGate ≠ 0 ∧ 0 < p.midiCutoffHz) → trackedCutoff p = p.cutoffHz) ∧
    modulatedCutoff Real.rpow p none none = trackedCutoff p ∧
    modulatedCutoff Real.rpow p (some voct) none = trackedCutoff p * Real.rpow 2 voct ∧
    modulatedCutoff Real.rpow p none (some fm)
      = trackedCutoff p * Real.rpow 2 (fm * p.fmDepth) ∧
    modulatedCutoff Real.rpow p (some voct) (some fm)
      = trackedCutoff p * Real.rpow 2 voct * Real.rpow 2 (fm * p.fmDepth) ∧
    (∀ cvFM : Option ℝ, modulatedCutoff Real.rpow p (some 1) cvFM
      = 2 * modulatedCutoff Real.rpow p none cvFM) ∧
    (∀ cvFM : Option ℝ, modulatedCutoff Real.rpow p (some (voct + 1)) cvFM
      = 2 * modulatedCutoff Real.rpow p (some voct) cvFM) := by
  refine ⟨?_, ?_, rfl, rfl, rfl, rfl, ?_, ?_⟩
  · intro h
    simp only [trackedCutoff, gt_iff_lt]
    rw [if_pos h]
  · intro h
    simp only [trackedCutoff, gt_iff_lt]
    rw [if_neg h]
  · intro cvFM
    have h1 : Real.rpow 2 1 = 2 := by simp
    cases cvFM <;> simp only [modulatedCutoff, voct_to_mult, h1] <;> ring
  · intro cvFM
    cases cvFM <;> simp only [modulatedCutoff, voct_to_mult, two_rpow_succ] <;> ring

theorem cutoff_modulation_witness :
    trackedCutoff { (construct [] : vortexAlgorithm ℝ) with midiGate := 1, midiCutoffHz := 440 }
      = 440 * 1 :=
  (cutoff_modulation
    { (construct [] : vortexAlgorithm ℝ) with midiGate := 1, midiCutoffHz := 440 } 0 0).1
    ⟨by decide, by norm_num⟩

/-- A defined conversion to `int` lies in the range of `int`. -/
theorem floatToInt_range (x : F32) (t : Int) (h : floatToInt x = some t) :
    -2 ^ 31 ≤ t ∧ t < 2 ^ 31 := by
  cases x with
  | fin m e =>
    by_cases he : e ≥ 0
    · simp only [floatToInt, he, if_true] at h
      split_ifs at h with hr
      cases h
      exact hr
    · simp only [floatToInt, he, if_false] at h
      split_ifs at h with hr
      cases h
      exact hr
  | inf neg => simp [floatToInt] at h
  | nan => simp [floatToInt] at h

/-- C18 as stated fails.  At the mode CV with bit pattern `0x40649249`, the
number `14979657 * 2^-22`, the product with `1.4f` rounds to `5.0f`, so from
base mode `0` the code takes mode `5`, while
`clamp (0 + trunc (1.4 * cv)) 0 6` is `4`.  At the mode CV `1e10f`, the number
`9765625 * 2^10`, the product is outside the range of `int` and the conversion
is undefined, where the formula gives `6`. -/
theorem effectiveMode_formula_fails :
    effectiveMode32 0 (some (F32.fin 14979657 (-22))) = some 5 ∧
    max 0 (min 6 (0 + truncToInt ((14979657 / 2 ^ 22 : ℚ) * (14 / 10)))) = 4 ∧
    effectiveMode32 0 (some (F32.fin 14979657 (-22)))
      ≠ some (max 0 (min 6 (0 + truncToInt ((14979657 / 2 ^ 22 : ℚ) * (14 / 10))))) ∧
    effectiveMode32 0 (some (F32.fin 9765625 10)) = none := by
  have hcode : effectiveMode32 0 (some (F32.fin 14979657 (-22))) = some 5 := by decide
  have htrunc : truncToInt ((14979657 / 2 ^ 22 : ℚ) * (14 / 10)) = 4 := by
    rw [truncToInt, if_pos (by norm_num), Int.floor_eq_iff]
    constructor <;> norm_num
  refine ⟨hcode, ?_, ?_, by decide⟩
  · rw [htrunc]; decide
  · rw [hcode, htrunc]; decide

/-- C18, amended: for every base mode in `0..6` and every `float` mode-CV value
for which the conversion `(int)(cv * 1.4f)` is defined, the product being the
binary32 product, and the sum with the base mode stays an `int`, the effective
mode is `clamp (base + (int)(cv * 1.4f)) 0 6` when the mode CV is connected and
the base mode otherwise; whenever it is defined it lies in `[0, 6]`.  A `+5 V`
CV takes base mode `0` to mode `6`, a `-5 V` CV takes base mode `6` to mode
`0`, and for the whole volts `n` in `-10..10` the offset is `trunc (1.4 * n)`. -/
theorem effectiveMode32_clamp (base : Int) (hb : 0 ≤ base ∧ base ≤ 6) (cv : F32)
    (offset : Int) (hconv : floatToInt (fmul cv float_1_4) = some offset)
    (hsum : base + offset < 2 ^ 31) :
    effectiveMode32 base (some cv) = some (max 0 (min 6 (base + offset))) ∧
    effectiveMode32 base none = some base ∧
    (∀ (c : Option F32) (m : Int), effectiveMode32 base c = some m → 0 ≤ m ∧ m ≤ 6) ∧
    effectiveMode32 0 (some (F32.fin 5 0)) = some 6 ∧
    effectiveMode32 6 (some (F32.fin (-5) 0)) = some 0 ∧
    (∀ b n : Int, 0 ≤ b → b ≤ 6 → -10 ≤ n → n ≤ 10 →
      effectiveMode32 b (some (F32.fin n 0))
        = some (max 0 (min 6 (b + Int.tdiv (14 * n) 10)))) := by
  have hr := floatToInt_range _ _ hconv
  refine ⟨?_, rfl, ?_, by decide, by decide, ?_⟩
  · simp only [effectiveMode32, hconv]
    rw [if_neg (by omega)]
    congr 1
    split_ifs <;> omega
  · intro c m hm
    cases c with
    | none =>
      simp only [effectiveMode32, Option.some.injEq] at hm
      omega
    | some x =>
      simp only [effectiveMode32] at hm
      cases hx : floatToInt (fmul x float_1_4) with
      | none => simp [hx] at hm
      | some off =>
        simp only [hx] at hm
        split_ifs at hm <;> simp only [Option.some.injEq] at hm <;> omega
  · intro b n hb0 hb6 hn0 hn1
    interval_cases b <;> interval_cases n <;> decide

theorem effectiveMode32_clamp_witness :
    ((0 : Int) ≤ 0 ∧ (0 : Int) ≤ 6) ∧
    floatToInt (fmul (F32.fin 14979657 (-22)) float_1_4) = some 5 ∧
    (0 : Int) + 5 < 2 ^ 31 ∧
    effectiveMode32 0 (some (F32.fin 14979657 (-22))) = some (max 0 (min 6 (0 + 5))) :=
  ⟨by decide, by decide, by decide,
   (effectiveMode32_clamp 0 (by decide) (F32.fin 14979657 (-22)) 5 (by decide)
      (by decide)).1⟩

/-- C19: with the base damping in `[0.01, 0.707]` and the base drive and mix in
`[0, 1]`, for every value of the resonance, drive and mix CVs, connected or
not, the effective damping lies in `[0.01, 0.707]` and the effective drive and
mix lie in `[0, 1]`; `parameterChanged` stores such base values for parameter
values in `0..1000`. -/
theorem effective_ranges (ops : FilterOps ℝ) (powf : ℝ → ℝ → ℝ) (p : vortexAlgorithm ℝ)
    (cvResonance cvDrive cvMix : Option ℝ) (busFrames : Int → ℝ) (numFrames i : Int)
    (hd : 1 / 100 ≤ p.damping ∧ p.damping ≤ 707 / 1000)
    (hdr : 0 ≤ p.drive ∧ p.drive ≤ 1) (hm : 0 ≤ p.mix ∧ p.mix ≤ 1) :
    (1 / 100 ≤ effectiveDamping p.damping cvResonance ∧
      effectiveDamping p.damping cvResonance ≤ 707 / 1000) ∧
    (0 ≤ effectiveDrive p.drive cvDrive ∧ effectiveDrive p.drive cvDrive ≤ 1) ∧
    (0 ≤ effectiveMix p.mix cvMix ∧ effectiveMix p.mix cvMix ≤ 1) ∧
    (1 / 100 ≤ (sample ops powf p busFrames numFrames i).damping ∧
      (sample ops powf p busFrames numFrames i).damping ≤ 707 / 1000 ∧
      0 ≤ (sample ops powf p busFrames numFrames i).drv ∧
      (sample ops powf p busFrames numFrames i).drv ≤ 1 ∧
      0 ≤ (sample ops powf p busFrames numFrames i).mix ∧
      (sample ops powf p busFrames numFrames i).mix ≤ 1) ∧
    (0 ≤ paramValue p kParamResonance → paramValue p kParamResonance ≤ 1000 →
      1 / 100 ≤ (parameterChanged powf p kParamResonance).damping ∧
      (parameterChanged powf p kParamResonance).damping ≤ 707 / 1000) ∧
    (0 ≤ paramValue p kParamDrive → paramValue p kParamDrive ≤ 1000 →
      0 ≤ (parameterChanged powf p kParamDrive).drive ∧
      (parameterChanged powf p kParamDrive).drive ≤ 1) ∧
    (0 ≤ paramValue p kParamMix → paramValue p kParamMix ≤ 1000 →
      0 ≤ (parameterChanged powf p kParamMix).mix ∧
      (parameterChanged powf p kParamMix).mix ≤ 1) := by
  have hD : ∀ c : Option ℝ, 1 / 100 ≤ effectiveDamping p.damping c ∧
      effectiveDamping p.damping c ≤ 707 / 1000 := by
    intro c
    cases c with
    | none => exact hd
    | some cv =>
      simp only [effectiveDamping]
      constructor <;> split_ifs <;> linarith
  have hR : ∀ c : Option ℝ, 0 ≤ effectiveDrive p.drive c ∧ effectiveDrive p.drive c ≤ 1 := by
    intro c
    cases c with
    | none => exact hdr
    | some cv =>
      simp only [effectiveDrive]
      constructor <;> split_ifs <;> linarith
  have hM : ∀ c : Option ℝ, 0 ≤ effectiveMix p.mix c ∧ effectiveMix p.mix c ≤ 1 := by
    intro c
    cases c with
    | none => exact hm
    | some cv =>
      simp only [effectiveMix]
      constructor <;> split_ifs <;> linarith
  refine ⟨hD _, hR _, hM _,
    ⟨(hD _).1, (hD _).2, (hR _).1, (hR _).2, (hM _).1, (hM _).2⟩, ?_, ?_, ?_⟩
  · intro h0 h1
    have h0r : (0 : ℝ) ≤ (paramValue p kParamResonance : ℝ) := by exact_mod_cast h0
    have h1r : (paramValue p kParamResonance : ℝ) ≤ 1000 := by exact_mod_cast h1
    have hk : (parameterChanged powf p kParamResonance).damping
        = resonance_to_damping (paramValue p kParamResonance) := by
      simp [parameterChanged, kParamResonance, kParamMode, kParamCutoff]
    rw [hk]
    simp only [resonance_to_damping]
    constructor <;> linarith
  · intro h0 h1
    have h0r : (0 : ℝ) ≤ (paramValue p kParamDrive : ℝ) := by exact_mod_cast h0
    have h1r : (paramValue p kParamDrive : ℝ) ≤ 1000 := by exact_mod_cast h1
    have hk : (parameterChanged powf p kParamDrive).drive
        = (paramValue p kParamDrive : ℝ) * (1 / 1000) := by
      simp [parameterChanged, kParamDrive, kParamMode, kParamCutoff, kParamResonance,
        kParamPoles]
    rw [hk]
    constructor <;> linarith
  · intro h0 h1
    have h0r : (0 : ℝ) ≤ (paramValue p kParamMix : ℝ) := by exact_mod_cast h0
    have h1r : (paramValue p kParamMix : ℝ) ≤ 1000 := by exact_mod_cast h1
    have hk : (parameterChanged powf p kParamMix).mix
        = (paramValue p kParamMix : ℝ) * (1 / 1000) := by
      simp [parameterChanged, kParamMix, kParamDrive, kParamMode, kParamCutoff,
        kParamResonance, kParamPoles]
    rw [hk]
    constructor <;> linarith

theorem effective_ranges_witness :
    ((1 : ℝ) / 100 ≤ (construct [] : vortexAlgorithm ℝ).damping ∧
      (construct [] : vortexAlgorithm ℝ).damping ≤ 707 / 1000) ∧
    (1 / 100 ≤ effectiveDamping (construct [] : vortexAlgorithm ℝ).damping (some 5) ∧
      effectiveDamping (construct [] : vortexAlgorithm ℝ).damping (some 5) ≤ 707 / 1000) ∧
    (0 ≤ effectiveDrive (construct [] : vortexAlgorithm ℝ).drive (some 5) ∧
      effectiveDrive (construct [] : vortexAlgorithm ℝ).drive (some 5) ≤ 1) ∧
    (0 ≤ effectiveMix (construct [] : vortexAlgorithm ℝ).mix (some (-5)) ∧
      effectiveMix (construct [] : vortexAlgorithm ℝ).mix (some (-5)) ≤ 1) :=
  have h := effective_ranges passOps Real.rpow (construct [] : vortexAlgorithm ℝ)
    (some 5) (some 5) (some (-5)) (fun _ => 0) 4 0
    (by norm_num [construct]) (by norm_num [construct]) (by norm_num [construct])
  ⟨by norm_num [construct], h.1, h.2.1, h.2.2.1⟩

/-! ## Claims on the dry/wet mix and the output write -/

/-- C20: in every iteration of `step` the value written is
`result = dry * (1 - mix) + wet * mix`, with `dry` the raw input sample (the
audio input if connected, else the audio CV input if connected, else `0`) and
`wet` the output of the filter dispatch; so with effective mix `0` the result
is the unprocessed input and with effective mix `1` it is the wet signal.  In
replace mode the output frame becomes `result`, otherwise `result` is added to
the frame; no other frame of the buses changes. -/
theorem mix_and_write (ops : FilterOps ℝ) (powf : ℝ → ℝ → ℝ) (p : vortexAlgorithm ℝ)
    (busFrames : Int → ℝ) (numFrames : Int) (i : Nat) :
    (sample ops powf p busFrames numFrames i).result
      = (sample ops powf p busFrames numFrames i).dry
          * (1 - (sample ops powf p busFrames numFrames i).mix)
        + (sample ops powf p busFrames numFrames i).wet
          * (sample ops powf p busFrames numFrames i).mix ∧
    (sample ops powf p busFrames numFrames i).dry
      = ((busSample busFrames numFrames (paramValue p kParamInput) i).orElse
          (fun _ => busSample busFrames numFrames (paramValue p kParamCVAudioIn) i)).getD 0 ∧
    (sample ops powf p busFrames numFrames i).mix
      = effectiveMix p.mix (busSample busFrames numFrames (paramValue p kParamCVMix) i) ∧
    (sample ops powf p busFrames numFrames i).wet
      = (filterDispatch ops p (sample ops powf p busFrames numFrames i).mode
          (decide (p.poles = 1)) p.sampleRate
          (sample ops powf p busFrames numFrames i).cutoff
          (sample ops powf p busFrames numFrames i).damping
          (driveStage (sample ops powf p busFrames numFrames i).drv
            (sample ops powf p busFrames numFrames i).dry)).2 ∧
    ((sample ops powf p busFrames numFrames i).mix = 0 →
      (sample ops powf p busFrames numFrames i).result
        = (sample ops powf p busFrames numFrames i).dry) ∧
    ((sample ops powf p busFrames numFrames i).mix = 1 →
      (sample ops powf p busFrames numFrames i).result
        = (sample ops powf p busFrames numFrames i).wet) ∧
    (paramValue p kParamOutputMode = 0 →
      (stepFrame ops powf numFrames (p, busFrames) i).2
          ((paramValue p kParamOutput - 1) * numFrames + i)
        = (sample ops powf p busFrames numFrames i).result) ∧
    (paramValue p kParamOutputMode ≠ 0 →
      (stepFrame ops powf numFrames (p, busFrames) i).2
          ((paramValue p kParamOutput - 1) * numFrames + i)
        = busFrames ((paramValue p kParamOutput - 1) * numFrames + i)
          + (sample ops powf p busFrames numFrames i).result) ∧
    (∀ j : Int, j ≠ (paramValue p kParamOutput - 1) * numFrames + i →
      (stepFrame ops powf numFrames (p, busFrames) i).2 j = busFrames j) := by
  have hres : (sample ops powf p busFrames numFrames i).result
      = (sample ops powf p busFrames numFrames i).dry
          * (1 - (sample ops powf p busFrames numFrames i).mix)
        + (sample ops powf p busFrames numFrames i).wet
          * (sample ops powf p busFrames numFrames i).mix := rfl
  refine ⟨hres, ?_, rfl, rfl, ?_, ?_, ?_, ?_, ?_⟩
  · simp only [sample]
    cases busSample busFrames numFrames (paramValue p kParamInput) i with
    | some x => rfl
    | none =>
      cases busSample busFrames numFrames (paramValue p kParamCVAudioIn) i with
      | some y => rfl
      | none => rfl
  · intro h
    rw [hres, h]; ring
  · intro h
    rw [hres, h]; ring
  · intro h
    simp [stepFrame, h]
  · intro h
    simp [stepFrame, h]
  · intro j hj
    simp [stepFrame, Function.update, hj]

theorem mix_and_write_witness :
    paramValue (construct [1, 2, 0] : vortexAlgorithm ℝ) kParamOutputMode = 0 ∧
    (stepFrame passOps Real.rpow 4 ((construct [1, 2, 0] : vortexAlgorithm ℝ), fun _ => 1) 0).2
        ((paramValue (construct [1, 2, 0] : vortexAlgorithm ℝ) kParamOutput - 1) * 4 + (0 : ℕ))
      = (sample passOps Real.rpow (construct [1, 2, 0] : vortexAlgorithm ℝ)
          (fun _ => 1) 4 (0 : ℕ)).result :=
  ⟨by decide,
   (mix_and_write passOps Real.rpow (construct [1, 2, 0] : vortexAlgorithm ℝ)
      (fun _ => 1) 4 0).2.2.2.2.2.2.1 (by decide)⟩

/-! ## Claims on `parameterChanged`, monotonicity of the saturator and the CC range -/

/-- C21: for every prior state, `parameterChanged` for the Mode parameter sets
the cached mode to the parameter value held by the host and resets the four
filter sections (both first-order and both second-order stages) to zero
state; the other cached parameters, the MIDI tracking state, the sample rate
and the parameter values are unchanged. -/
theorem parameterChanged_mode_resets {K : Type} [Field K] (powf : K → K → K)
    (p : vortexAlgorithm K) :
    (parameterChanged powf p kParamMode).mode = paramValue p kParamMode ∧
    (parameterChanged powf p kParamMode).f1a.z = 0 ∧
    (parameterChanged powf p kParamMode).f1b.z = 0 ∧
    (parameterChanged powf p kParamMode).f2a.z0 = 0 ∧
    (parameterChanged powf p kParamMode).f2a.z1 = 0 ∧
    (parameterChanged powf p kParamMode).f2b.z0 = 0 ∧
    (parameterChanged powf p kParamMode).f2b.z1 = 0 ∧
    (parameterChanged powf p kParamMode).cutoffHz = p.cutoffHz ∧
    (parameterChanged powf p kParamMode).damping = p.damping ∧
    (parameterChanged powf p kParamMode).poles = p.poles ∧
    (parameterChanged powf p kParamMode).drive = p.drive ∧
    (parameterChanged powf p kParamMode).mix = p.mix ∧
    (parameterChanged powf p kParamMode).fmDepth = p.fmDepth ∧
    (parameterChanged powf p kParamMode).midiCutoffHz = p.midiCutoffHz ∧
    (parameterChanged powf p kParamMode).midiGate = p.midiGate ∧
    (parameterChanged powf p kParamMode).midiNote = p.midiNote ∧
    (parameterChanged powf p kParamMode).pitchBendMult = p.pitchBendMult ∧
    (parameterChanged powf p kParamMode).midiChannel = p.midiChannel ∧
    (parameterChanged powf p kParamMode).sampleRate = p.sampleRate ∧
    (parameterChanged powf p kParamMode).v = p.v := by
  have h : parameterChanged powf p kParamMode =
      { p with mode := paramValue p kParamMode,
               f1a := p.f1a.reset, f1b := p.f1b.reset,
               f2a := p.f2a.reset, f2b := p.f2b.reset } := by
    simp [parameterChanged]
  rw [h]
  exact ⟨rfl, rfl, rfl, rfl, rfl, rfl, rfl, rfl, rfl, rfl, rfl, rfl, rfl, rfl, rfl, rfl,
    rfl, rfl, rfl, rfl⟩

/-- C22: `soft_clip` is non-decreasing over the reals, also beyond the knee at
`|x| = 3`; so the drive stage of `step`, whose gain `1 + 9 * drv` is positive
whenever it is applied, never inverts the order of two samples. -/
theorem soft_clip_monotone (x y : ℝ) (h : x ≤ y) :
    soft_clip x ≤ soft_clip y ∧ ∀ drv : ℝ, driveStage drv x ≤ driveStage drv y := by
  refine ⟨soft_clip_mono h, fun drv => ?_⟩
  simp only [driveStage, gt_iff_lt]
  split_ifs with hd
  · apply soft_clip_mono
    have hg : 0 ≤ 1 + drv * 9 := by linarith
    exact mul_le_mul_of_nonneg_right h hg
  · exact h

theorem soft_clip_monotone_witness :
    (3 : ℝ) ≤ 4 ∧ soft_clip (3 : ℝ) ≤ soft_clip 4 ∧
    ∀ drv : ℝ, driveStage drv 3 ≤ driveStage drv 4 :=
  ⟨by norm_num, soft_clip_monotone 3 4 (by norm_num)⟩

/-- `scaleCCToParam` on an index that has an entry in the table. -/
theorem scaleCCToParam_entry (api : NT_macros) (idx : Int) (entry : NT_parameter)
    (hidx : 0 ≤ idx) (he : (parameters api)[idx.toNat]? = some entry) (v : Nat) :
    scaleCCToParam api v idx =
      some (toInt16 (toInt16 entry.min +
        toInt16 (Int.tdiv (toInt32 ((v : Int) * (toInt16 entry.max - toInt16 entry.min))) 127))) := by
  simp [scaleCCToParam, not_lt.mpr hidx, he]

/-- For the ranges of the eight value parameters and a CC value up to `127`
none of the integer conversions of `scaleCCToParam` changes a value, and the
result can only grow with the CC value. -/
theorem scale_arith (mn mx : Int) (v w : Nat) (hvw : v ≤ w) (hw : w ≤ 127)
    (hr : (mn = 0 ∧ mx = 6) ∨ (mn = 0 ∧ mx = 1000) ∨ (mn = 0 ∧ mx = 1) ∨
      (mn = -1000 ∧ mx = 1000) ∨ (mn = 1 ∧ mx = 16)) :
    toInt16 mn = mn ∧ toInt16 mx = mx ∧
    toInt32 ((v : Int) * (mx - mn)) = (v : Int) * (mx - mn) ∧
    Int.tdiv ((v : Int) * (mx - mn)) 127 = (v : Int) * (mx - mn) / 127 ∧
    toInt16 ((v : Int) * (mx - mn) / 127) = (v : Int) * (mx - mn) / 127 ∧
    toInt16 (mn + (v : Int) * (mx - mn) / 127) = mn + (v : Int) * (mx - mn) / 127 ∧
    mn ≤ mn + (v : Int) * (mx - mn) / 127 ∧ mn + (v : Int) * (mx - mn) / 127 ≤ mx ∧
    mn + (v : Int) * (mx - mn) / 127 ≤ mn + (w : Int) * (mx - mn) / 127 := by
  have ht : ∀ a : Int, 0 ≤ a → Int.tdiv a 127 = a / 127 := fun a ha =>
    Int.tdiv_eq_ediv ha (by norm_num)
  rcases hr with ⟨rfl, rfl⟩ | ⟨rfl, rfl⟩ | ⟨rfl, rfl⟩ | ⟨rfl, rfl⟩ | ⟨rfl, rfl⟩ <;>
    (refine ⟨?_, ?_, ?_, ?_, ?_, ?_, ?_, ?_, ?_⟩ <;>
      first
        | omega
        | (simp only [toInt16, toInt32]; omega)
        | exact ht _ (by omega))

/-- C23: for every parameter index mapped by `ccToParam` and every CC value
`v` in `0..127`, `scaleCCToParam v idx` is `min + v * (max - min) / 127`
computed exactly: the 32-bit product and the two `int16_t` conversions hold
their values unchanged (FM Depth, of span `2000`, included), the result lies
in the declared `[min, max]`, and it does not decrease when `v` grows. -/
theorem scaleCCToParam_in_range (api : NT_macros) (cc : Nat) (idx : Int)
    (h : ccToParam[cc]? = some idx) (hidx : 0 ≤ idx) :
    ∃ entry, (parameters api)[idx.toNat]? = some entry ∧
      ∀ v w : Nat, v ≤ w → w ≤ 127 →
        scaleCCToParam api v idx
          = some (entry.min + (v : Int) * (entry.max - entry.min) / 127) ∧
        scaleCCToParam api w idx
          = some (entry.min + (w : Int) * (entry.max - entry.min) / 127) ∧
        entry.min ≤ entry.min + (v : Int) * (entry.max - entry.min) / 127 ∧
        entry.min + (v : Int) * (entry.max - entry.min) / 127 ≤ entry.max ∧
        entry.min + (v : Int) * (entry.max - entry.min) / 127
          ≤ entry.min + (w : Int) * (entry.max - entry.min) / 127 ∧
        toInt32 ((v : Int) * (entry.max - entry.min)) = (v : Int) * (entry.max - entry.min) ∧
        toInt16 ((v : Int) * (entry.max - entry.min) / 127)
          = (v : Int) * (entry.max - entry.min) / 127 ∧
        toInt16 (entry.min + (v : Int) * (entry.max - entry.min) / 127)
          = entry.min + (v : Int) * (entry.max - entry.min) / 127 := by
  have key : ∀ entry : NT_parameter, (parameters api)[idx.toNat]? = some entry →
      ((entry.min = 0 ∧ entry.max = 6) ∨ (entry.min = 0 ∧ entry.max = 1000) ∨
        (entry.min = 0 ∧ entry.max = 1) ∨ (entry.min = -1000 ∧ entry.max = 1000) ∨
        (entry.min = 1 ∧ entry.max = 16)) →
      ∀ v w : Nat, v ≤ w → w ≤ 127 →
        scaleCCToParam api v idx
          = some (entry.min + (v : Int) * (entry.max - entry.min) / 127) ∧
        scaleCCToParam api w idx
          = some (entry.min + (w : Int) * (entry.max - entry.min) / 127) ∧
        entry.min ≤ entry.min + (v : Int) * (entry.max - entry.min) / 127 ∧
        entry.min + (v : Int) * (entry.max - entry.min) / 127 ≤ entry.max ∧
        entry.min + (v : Int) * (entry.max - entry.min) / 127
          ≤ entry.min + (w : Int) * (entry.max - entry.min) / 127 ∧
        toInt32 ((v : Int) * (entry.max - entry.min)) = (v : Int) * (entry.max - entry.min) ∧
        toInt16 ((v : Int) * (entry.max - entry.min) / 127)
          = (v : Int) * (entry.max - entry.min) / 127 ∧
        toInt16 (entry.min + (v : Int) * (entry.max - entry.min) / 127)
          = entry.min + (v : Int) * (entry.max - entry.min) / 127 := by
    intro entry he hr v w hvw hw
    have exact_at : ∀ u : Nat, u ≤ 127 → scaleCCToParam api u idx
        = some (entry.min + (u : Int) * (entry.max - entry.min) / 127) := by
      intro u hu
      obtain ⟨a1, a2, a3, a4, a5, a6, -, -, -⟩ :=
        scale_arith entry.min entry.max u u (le_refl u) hu hr
      rw [scaleCCToParam_entry api idx entry hidx he u, a1, a2, a3, a4, a5, a6]
    obtain ⟨-, -, b3, -, b5, b6, b7, b8, b9⟩ :=
      scale_arith entry.min entry.max v w hvw hw hr
    exact ⟨exact_at v (le_trans hvw hw), exact_at w hw, b7, b8, b9, b3, b5, b6⟩
  have hm := ccToParam_mapped cc idx h hidx
  simp only [List.mem_cons, List.mem_singleton, List.mem_nil_iff, or_false] at hm
  rcases hm with rfl | rfl | rfl | rfl | rfl | rfl | rfl | rfl
  · exact ⟨⟨"Mode", 0, 6, 1⟩, rfl, key _ rfl (Or.inl ⟨rfl, rfl⟩)⟩
  · exact ⟨⟨"Cutoff", 0, 1000, 500⟩, rfl, key _ rfl (Or.inr (Or.inl ⟨rfl, rfl⟩))⟩
  · exact ⟨⟨"Resonance", 0, 1000, 0⟩, rfl, key _ rfl (Or.inr (Or.inl ⟨rfl, rfl⟩))⟩
  · exact ⟨⟨"Poles", 0, 1, 0⟩, rfl, key _ rfl (Or.inr (Or.inr (Or.inl ⟨rfl, rfl⟩)))⟩
  · exact ⟨⟨"Drive", 0, 1000, 0⟩, rfl, key _ rfl (Or.inr (Or.inl ⟨rfl, rfl⟩))⟩
  · exact ⟨⟨"Mix", 0, 1000, 1000⟩, rfl, key _ rfl (Or.inr (Or.inl ⟨rfl, rfl⟩))⟩
  · exact ⟨⟨"FM Depth", -1000, 1000, 0⟩, rfl,
      key _ rfl (Or.inr (Or.inr (Or.inr (Or.inl ⟨rfl, rfl⟩))))⟩
  · exact ⟨⟨"MIDI Channel", 1, 16, 1⟩, rfl,
      key _ rfl (Or.inr (Or.inr (Or.inr (Or.inr ⟨rfl, rfl⟩))))⟩

theorem scaleCCToParam_in_range_witness :
    ccToParam[20]? = some kParamFMDepth ∧ 0 ≤ kParamFMDepth ∧
    ∃ entry, (parameters sampleMacros)[kParamFMDepth.toNat]? = some entry ∧
      ∀ v w : Nat, v ≤ w → w ≤ 127 →
        scaleCCToParam sampleMacros v kParamFMDepth
          = some (entry.min + (v : Int) * (entry.max - entry.min) / 127) ∧
        scaleCCToParam sampleMacros w kParamFMDepth
          = some (entry.min + (w : Int) * (entry.max - entry.min) / 127) ∧
        entry.min ≤ entry.min + (v : Int) * (entry.max - entry.min) / 127 ∧
        entry.min + (v : Int) * (entry.max - entry.min) / 127 ≤ entry.max ∧
        entry.min + (v : Int) * (entry.max - entry.min) / 127
          ≤ entry.min + (w : Int) * (entry.max - entry.min) / 127 ∧
        toInt32 ((v : Int) * (entry.max - entry.min)) = (v : Int) * (entry.max - entry.min) ∧
        toInt16 ((v : Int) * (entry.max - entry.min) / 127)
          = (v : Int) * (entry.max - entry.min) / 127 ∧
        toInt16 (entry.min + (v : Int) * (entry.max - entry.min) / 127)
          = entry.min + (v : Int) * (entry.max - entry.min) / 127 :=
  ⟨by decide, by decide,
   scaleCCToParam_in_range sampleMacros 20 kParamFMDepth (by decide) (by decide)⟩

end vortex
